import Mathlib

/-!
Verification development for the `projectautomator` repository
(`fastmcp` application: LLM tool-calling orchestrator, session context
store, GitHub/Jira/email wrapper services).

The Python code is shallowly embedded:

* Python runtime values flowing through the orchestrator (JSON data,
  dicts of tool arguments, Pydantic model instances) are modelled by the
  inductive type `Val` below.  `Val.vdict` is a Python `dict` (insertion
  ordered, as in CPython); `Val.vrec` is an object carrying attributes
  (a Pydantic model such as `GithubRepo`): `k in obj` is `False` for it
  while `hasattr(obj, k)` consults its fields.
* External effects (the Gemini model, HTTP calls inside the tool
  runners, SMTP) are oracles supplied as explicit parameters, consumed
  exactly at the program points where the Python code awaits them.
* `datetime.now()` timestamps are threaded as explicit strings (their
  ISO rendering); real time itself is not modelled.
* Exceptions that a code path catches are modelled with `Except`/guard
  values; exceptions no path of interest can raise (e.g. `"x" in 5`)
  are not modelled and the corresponding tests evaluate to `false`.
-/

set_option maxHeartbeats 1000000

namespace ProjectAutomator

/-- A Python runtime value as seen by the orchestrator and the context
store: JSON scalars, lists, dicts (insertion ordered), and attribute
records (Pydantic model instances, whose fields are its attributes). -/
inductive Val where
  | vnull
  | vbool (b : Bool)
  | vint (n : Int)
  | vstr (s : String)
  | vlist (xs : List Val)
  | vdict (fs : List (String × Val))
  | vrec (fs : List (String × Val))
  deriving Repr

namespace Val

/-- Python truthiness (`bool(v)`): `None`, `False`, `0`, `""`, empty
list/dict are falsy; attribute records are always truthy. -/
def truthy : Val → Bool
  | vnull => false
  | vbool b => b
  | vint n => n != 0
  | vstr s => s != ""
  | vlist xs => !xs.isEmpty
  | vdict fs => !fs.isEmpty
  | vrec _ => true

end Val

/-- Lookup in an insertion-ordered association list (Python `dict`
access by key): first binding wins (keys are unique in a real dict). -/
def alookup (fs : List (String × Val)) (k : String) : Option Val :=
  match fs with
  | [] => none
  | (k', v) :: rest => if k' = k then some v else alookup rest k

/-- Python `d[k] = v` on an insertion-ordered dict: update the existing
binding in place, or append a new binding at the end. -/
def aset (fs : List (String × Val)) (k : String) (v : Val) : List (String × Val) :=
  match fs with
  | [] => [(k, v)]
  | (k', v') :: rest => if k' = k then (k, v) :: rest else (k', v') :: aset rest k v

/-- Python `d.pop(k)`: remove the binding for `k` (first occurrence). -/
def aremove (fs : List (String × Val)) (k : String) : List (String × Val) :=
  match fs with
  | [] => []
  | (k', v') :: rest => if k' = k then rest else (k', v') :: aremove rest k

/-- Python `k in d` for a dict `d`. -/
def akey (fs : List (String × Val)) (k : String) : Bool :=
  (alookup fs k).isSome

namespace Val

/-- Python `d.get(k)` (default `None` is reported as `none`); only
dicts support `.get`. -/
def pyGet : Val → String → Option Val
  | vdict fs, k => alookup fs k
  | _, _ => none

/-- Python `d.get(k, dflt)`. -/
def pyGetD (v : Val) (k : String) (dflt : Val) : Val :=
  (v.pyGet k).getD dflt

/-- Python `k in v` as the context-extraction code uses it: key
membership for dicts, element membership for lists, `False` for
attribute records (Pydantic v1 `in` iterates `(key, value)` pairs and
never matches a bare string key). -/
def hasKey : Val → String → Bool
  | vdict fs, k => akey fs k
  | vlist xs, k => xs.any fun v => match v with | vstr s => s == k | _ => false
  | _, _ => false

/-- Python `hasattr(v, k)`: true on attribute records with that field. -/
def hasAttr : Val → String → Bool
  | vrec fs, k => akey fs k
  | _, _ => false

/-- The list of elements of a Python list value (`[]` for non-lists;
call sites only reach this with lists). -/
def asList : Val → List Val
  | vlist xs => xs
  | _ => []

end Val

/-- Truthiness of an optional value (`bool(x)` where `x` may be the
Python `None` produced by a failed `.get`). -/
def truthyOpt : Option Val → Bool
  | none => false
  | some v => v.truthy

/-- Character-list prefix test (kernel-computable building block for
the string operations below). -/
def listPrefixOf : List Char → List Char → Bool
  | [], _ => true
  | _ :: _, [] => false
  | a :: as, b :: bs => a == b && listPrefixOf as bs

/-- Substring search on character lists. -/
def listContainsSub (needle : List Char) : List Char → Bool
  | [] => listPrefixOf needle []
  | c :: rest => listPrefixOf needle (c :: rest) || listContainsSub needle rest

/-- Python `needle in haystack` on strings. -/
def strContains (hay needle : String) : Bool :=
  listContainsSub needle.toList hay.toList

/-- Python `s.startswith(p)`. -/
def pyStartsWith (s p : String) : Bool :=
  listPrefixOf p.toList s.toList

/-- Python `s.strip()`: remove leading and trailing whitespace. -/
def pyStrip (s : String) : String :=
  String.mk (((s.toList.dropWhile Char.isWhitespace).reverse.dropWhile
    Char.isWhitespace).reverse)

/-- String rendering used where Python interpolates a value into an
f-string (claim-relevant call sites only ever pass strings). -/
def pyStr : Val → String
  | .vstr s => s
  | .vnull => "None"
  | .vbool true => "True"
  | .vbool false => "False"
  | .vint n => toString n
  | .vlist _ => "[...]"
  | .vdict _ => "{...}"
  | .vrec _ => "<object>"

mutual

/-- `SessionContext._make_serializable` (context_service.py:52-67):
recursively convert values to JSON-serializable form; an object with a
`__dict__` becomes the dict of its non-underscore-prefixed attributes. -/
def serializeVal : Val → Val
  | .vnull => .vnull
  | .vbool b => .vbool b
  | .vint n => .vint n
  | .vstr s => .vstr s
  | .vlist xs => .vlist (serializeList xs)
  | .vdict fs => .vdict (serializeFields fs)
  | .vrec fs => .vdict (serializeAttrFields fs)

/-- Serialization mapped over a list. -/
def serializeList : List Val → List Val
  | [] => []
  | v :: vs => serializeVal v :: serializeList vs

/-- Serialization mapped over dict entries. -/
def serializeFields : List (String × Val) → List (String × Val)
  | [] => []
  | (k, v) :: fs => (k, serializeVal v) :: serializeFields fs

/-- Serialization over object attributes, skipping keys that start
with an underscore (`if not k.startswith('_')`). -/
def serializeAttrFields : List (String × Val) → List (String × Val)
  | [] => []
  | (k, v) :: fs =>
      if pyStartsWith k "_" then serializeAttrFields fs
      else (k, serializeVal v) :: serializeAttrFields fs

end

/-- Python attribute access `obj.k` on an attribute record. -/
def Val.attrGet : Val → String → Option Val
  | .vrec fs, k => alookup fs k
  | _, _ => none

/-- A Python `None`-able value: `none` is Python `None`. -/
def optVal : Option Val → Val
  | none => .vnull
  | some v => v

/-- Collapse a stored `None` back to `none` (Python `data.get(k)` hands
the same `None` whether the key is absent or bound to `None`). -/
def noneIfNull : Option Val → Option Val
  | some .vnull => none
  | o => o

/-- The in-memory `SessionContext` object (context_service.py:7-31).
The `datetime` fields `created_at`/`last_updated` are omitted: real
time is not modelled, and no claim concerns them.  List-typed fields
hold the raw Python values; contexts written by `save_context` always
store lists there, and a non-list stored value is read as `[]`. -/
structure SessionContext where
  session_id : String
  conversation_history : List Val
  current_repository : Option Val
  current_owner : Option Val
  active_branches : List Val
  recent_issues : List Val
  recent_prs : List Val
  current_jira_project : Option Val
  current_jira_project_key : Option Val
  recent_jira_issues : List Val
  recent_jira_projects : List Val
  recent_jira_sprints : List Val
  current_jira_sprint : Option Val
  recent_actions : List Val
  user_preferences : Val
  deriving Repr

namespace SessionContext

/-- `SessionContext.__init__` (context_service.py:8-31). -/
def empty : SessionContext :=
  { session_id := ""
    conversation_history := []
    current_repository := none
    current_owner := none
    active_branches := []
    recent_issues := []
    recent_prs := []
    current_jira_project := none
    current_jira_project_key := none
    recent_jira_issues := []
    recent_jira_projects := []
    recent_jira_sprints := []
    current_jira_sprint := none
    recent_actions := []
    user_preferences := .vdict [] }

/-- Insert at the front then truncate to 5 when the list exceeds 5
(the `insert(0, ...)` / `[:5]` pattern of context_service.py:161-178). -/
def insertCap5 (l : List Val) (v : Val) : List Val :=
  let l' := v :: l
  if l'.length > 5 then l'.take 5 else l'

/-- One iteration of the `for tool_call in tool_calls` loop of
`_extract_context_from_response` (context_service.py:89-120): update
current owner/repo and Jira keys from the call arguments and append a
record to `recent_actions`, keeping only the last 10.  The source's
sequential reassignments of the three `current_*` attributes are
expressed as chained conditionals feeding one record update (the
`ticket_id` branch overrides the `project_key` branch, as in the
source). -/
def extractFromToolCall (now : String) (result : Val) (c : SessionContext)
    (tc : Val) : SessionContext :=
  let args := tc.pyGetD "args" (.vdict [])
  let tool_name := tc.pyGetD "name" (.vstr "")
  let isGithubRepoCall := args.hasKey "owner" && args.hasKey "repo"
  let newOwner := if isGithubRepoCall then noneIfNull (args.pyGet "owner") else c.current_owner
  let newRepo := if isGithubRepoCall then noneIfNull (args.pyGet "repo") else c.current_repository
  let isJiraCall := match tool_name with | .vstr s => pyStartsWith s "jira_" | _ => false
  let keyAfterProject :=
    if isJiraCall && args.hasKey "project_key" then noneIfNull (args.pyGet "project_key")
    else c.current_jira_project_key
  let newJiraKey :=
    if isJiraCall && args.hasKey "ticket_id" then
      match args.pyGet "ticket_id" with
      | some (.vstr tid) =>
          if tid.toList.contains '-' then
            some (Val.vstr (String.mk (tid.toList.takeWhile (fun ch => ch != '-'))))
          else keyAfterProject
      | _ => keyAfterProject
    else keyAfterProject
  let action := Val.vdict
    [("timestamp", .vstr now),
     ("tool", tc.pyGetD "name" .vnull),
     ("args", args),
     ("result", serializeVal result)]
  let ra := c.recent_actions ++ [action]
  let ra := if ra.length > 10 then ra.drop (ra.length - 10) else ra
  { c with current_owner := newOwner
           current_repository := newRepo
           current_jira_project_key := newJiraKey
           recent_actions := ra }

/-- The list-shaped `result` dispatch of `_extract_context_from_response`
(context_service.py:124-155), translated branch for branch.  Note the
source's `elif result and len(result) > 0` (the branch-list arm)
catches every nonempty list that is not a repository list, so the
later issue/PR/Jira list arms are unreachable; they are kept verbatim. -/
def extractFromListResult (c : SessionContext) (rs : List Val) : SessionContext :=
  match rs with
  | [] => c
  | first :: _ =>
      if first.hasKey "name" && first.hasKey "full_name" then
        c
      else if rs.length > 0 then
        if ((match first with
             | .vdict _ => first.hasKey "name" && first.hasKey "commit_sha"
             | _ => false)
            || (first.hasAttr "name" && first.hasAttr "commit_sha")) then
          let branches := rs.foldl (fun acc b =>
            match b with
            | .vdict fs => acc ++ [(alookup fs "name").getD .vnull]
            | _ =>
                if b.hasAttr "name" then acc ++ [(b.attrGet "name").getD .vnull]
                else acc) []
          { c with active_branches := branches }
        else c
      else if first.hasKey "number" && first.hasKey "title" then
        { c with recent_issues := rs.take 5 }
      else if first.hasKey "id" && first.hasKey "number" then
        { c with recent_prs := rs.take 5 }
      else if rs.length > 0 && first.hasKey "key" && first.hasKey "name" then
        { c with recent_jira_projects := rs.take 5 }
      else if rs.length > 0 && first.hasKey "key" && first.hasKey "fields" then
        { c with recent_jira_issues := rs.take 5 }
      else if rs.length > 0 && first.hasKey "id" && first.hasKey "name" then
        { c with recent_jira_sprints := rs.take 5 }
      else c

/-- The dict-shaped `result` dispatch of `_extract_context_from_response`
(context_service.py:156-178): single GitHub issue/PR and single Jira
issue/project results are pushed onto the matching `recent_*` list
with a cap of 5. -/
def extractFromDictResult (c : SessionContext) (result : Val) : SessionContext :=
  if result.hasKey "number" && result.hasKey "title" then
    if result.hasKey "html_url"
        && (match result.pyGet "html_url" with
            | some (.vstr u) => strContains u "/issues/"
            | _ => false) then
      { c with recent_issues := insertCap5 c.recent_issues result }
    else if result.hasKey "html_url"
        && (match result.pyGet "html_url" with
            | some (.vstr u) => strContains u "/pull/"
            | _ => false) then
      { c with recent_prs := insertCap5 c.recent_prs result }
    else c
  else if result.hasKey "key" && result.hasKey "fields" then
    { c with recent_jira_issues := insertCap5 c.recent_jira_issues result }
  else if result.hasKey "key" && result.hasKey "name" && !result.hasKey "fields" then
    { c with recent_jira_projects := insertCap5 c.recent_jira_projects result }
  else c

/-- `SessionContext._extract_context_from_response`
(context_service.py:69-178). -/
def extractContextFromResponse (c : SessionContext) (now : String)
    (response : Val) : SessionContext :=
  match response.pyGet "success" with
  | some (.vbool false) => c
  | _ =>
    let resultAndCalls :=
      if response.hasKey "data" then
        let data := response.pyGetD "data" (.vdict [])
        (data.pyGetD "result" .vnull, (data.pyGetD "toolCalls" (.vlist [])).asList)
      else
        (response.pyGetD "result" .vnull, (response.pyGetD "toolCalls" (.vlist [])).asList)
    let result := resultAndCalls.1
    let c := resultAndCalls.2.foldl (extractFromToolCall now result) c
    if result.truthy then
      match result with
      | .vlist rs => extractFromListResult c rs
      | .vdict _ => extractFromDictResult c result
      | _ => c
    else c

/-- The record appended to `conversation_history` by `add_conversation`
(context_service.py:41-47). -/
def conversationRecord (now : String) (user_input : String)
    (agent_response : Val) : Val :=
  Val.vdict
    [("timestamp", .vstr now),
     ("user_input", .vstr user_input),
     ("agent_response", agent_response),
     ("tools_used", (agent_response.pyGetD "data" (.vdict [])).pyGetD "toolCalls" (.vlist [])),
     ("success", agent_response.pyGetD "success" (.vbool false))]

/-- `SessionContext.add_conversation` (context_service.py:33-50):
extract context from the response, then append the conversation record
to the history. -/
def add_conversation (c : SessionContext) (now : String) (user_input : String)
    (agent_response : Val) : SessionContext :=
  let c := extractContextFromResponse c now agent_response
  { c with conversation_history :=
      c.conversation_history ++ [conversationRecord now user_input agent_response] }

/-- `SessionContext.to_dict` (context_service.py:221-247), minus the
two unmodelled `datetime` fields. -/
def to_dict (c : SessionContext) : Val :=
  .vdict
    [("session_id", .vstr c.session_id),
     ("conversation_history", .vlist (serializeList c.conversation_history)),
     ("current_repository", optVal c.current_repository),
     ("current_owner", optVal c.current_owner),
     ("active_branches", .vlist c.active_branches),
     ("recent_issues", .vlist (serializeList c.recent_issues)),
     ("recent_prs", .vlist (serializeList c.recent_prs)),
     ("current_jira_project", optVal c.current_jira_project),
     ("current_jira_project_key", optVal c.current_jira_project_key),
     ("recent_jira_issues", .vlist (serializeList c.recent_jira_issues)),
     ("recent_jira_projects", .vlist (serializeList c.recent_jira_projects)),
     ("recent_jira_sprints", .vlist (serializeList c.recent_jira_sprints)),
     ("current_jira_sprint", optVal c.current_jira_sprint),
     ("recent_actions", .vlist (serializeList c.recent_actions)),
     ("user_preferences", serializeVal c.user_preferences)]

/-- `SessionContext.from_dict` (context_service.py:249-276), minus the
two unmodelled `datetime` fields. -/
def from_dict (data : Val) : SessionContext :=
  { session_id := (match data.pyGetD "session_id" (.vstr "") with
                   | .vstr s => s
                   | _ => "")
    conversation_history := (data.pyGetD "conversation_history" (.vlist [])).asList
    current_repository := noneIfNull (data.pyGet "current_repository")
    current_owner := noneIfNull (data.pyGet "current_owner")
    active_branches := (data.pyGetD "active_branches" (.vlist [])).asList
    recent_issues := (data.pyGetD "recent_issues" (.vlist [])).asList
    recent_prs := (data.pyGetD "recent_prs" (.vlist [])).asList
    current_jira_project := noneIfNull (data.pyGet "current_jira_project")
    current_jira_project_key := noneIfNull (data.pyGet "current_jira_project_key")
    recent_jira_issues := (data.pyGetD "recent_jira_issues" (.vlist [])).asList
    recent_jira_projects := (data.pyGetD "recent_jira_projects" (.vlist [])).asList
    recent_jira_sprints := (data.pyGetD "recent_jira_sprints" (.vlist [])).asList
    current_jira_sprint := noneIfNull (data.pyGet "current_jira_sprint")
    recent_actions := (data.pyGetD "recent_actions" (.vlist [])).asList
    user_preferences := data.pyGetD "user_preferences" (.vdict []) }

end SessionContext

/-- State of the single context file `context.json`: absent, unreadable
or unparsable (any exception while opening or `json.load`-ing), or the
parsed stored JSON value. -/
inductive FileState where
  | absent
  | corrupt
  | stored (data : Val)
  deriving Repr

/-- The `ContextService` object (context_service.py:278-344): the one
shared context file plus the in-memory `current_context`. -/
structure ContextService where
  file : FileState
  current_context : Option SessionContext

namespace ContextService

/-- The fresh-context arm of `get_or_create_context`
(context_service.py:311-316). -/
def newGlobal (svc : ContextService) : SessionContext × ContextService :=
  let context := { SessionContext.empty with session_id := "global_context" }
  (context, { svc with current_context := some context })

/-- `ContextService.get_or_create_context` (context_service.py:290-316).
The `session_id` argument is accepted and ignored, as in the source.
A stored value is used only when it is truthy and one of
`conversation_history`, `current_repository`, `recent_actions` is
truthy; otherwise — and on any read/parse error — a fresh context with
session id `global_context` is produced.  (A non-dict stored value
makes the Python `.get` raise into the same fresh-context path that
this embedding reaches through the falsy condition.) -/
def get_or_create_context (svc : ContextService) (session_id : Option String) :
    SessionContext × ContextService :=
  match svc.file with
  | .stored data =>
      if data.truthy
          && ((data.pyGetD "conversation_history" .vnull).truthy
              || (data.pyGetD "current_repository" .vnull).truthy
              || (data.pyGetD "recent_actions" .vnull).truthy) then
        let context := SessionContext.from_dict data
        (context, { svc with current_context := some context })
      else newGlobal svc
  | _ => newGlobal svc

/-- `ContextService.save_context` (context_service.py:318-328):
overwrite the single file with the serialized current context (write
errors are swallowed in the source; the write is modelled as
succeeding). -/
def save_context (svc : ContextService) : ContextService :=
  match svc.current_context with
  | some c => { svc with file := .stored c.to_dict }
  | none => svc

/-- `ContextService.clear_context` (context_service.py:330-344):
replace the current context by a fresh one and overwrite the file. -/
def clear_context (svc : ContextService) : SessionContext × ContextService :=
  let c := { SessionContext.empty with session_id := "global_context" }
  (c, { file := .stored c.to_dict, current_context := some c })

end ContextService

/-- Python `d[k] = v` at the `Val` level (github_service.py:189-190
assigns into the parsed JSON dict; a non-dict JSON body would raise and
is left unchanged here). -/
def Val.dictSet : Val → String → Val → Val
  | .vdict fs, k, v => .vdict (aset fs k v)
  | v, _, _ => v

/-- A `GithubRepo` Pydantic instance (github_models.py:4-9); the
`description` field defaults to `None`. -/
def GithubRepo (name full_name : String) (priv : Bool) (html_url : String) : Val :=
  .vrec
    [("name", .vstr name),
     ("full_name", .vstr full_name),
     ("private", .vbool priv),
     ("html_url", .vstr html_url),
     ("description", .vnull)]

/-- The value `get_repos` returns when `settings.github_mock` is set
(github_service.py:23-26): a one-element list holding the canned
`test-repo` record. -/
def get_repos_mock : Val :=
  .vlist [GithubRepo "test-repo" "user/test-repo" false "http://example.com"]

/-- Truthiness of an optional configuration string (`settings`
values such as `jira_default_project_key`). -/
def strOptTruthy : Option String → Bool
  | none => false
  | some s => s != ""

/-- External effects reaching `merge_pull_request`
(github_service.py:138-193): the mock flag, the outcome of the
`GET /pulls/{n}` used to synthesize commit title/message (`none` models
the bare `except:` path — any exception while fetching), and the parsed
JSON of the successful merge `PUT`. -/
structure MergeEnv where
  github_mock : Bool
  fetchPR : Option Val
  putResult : Val

/-- Result of a merge call: the `merge_data` payload sent in the `PUT`
(`none` in mock mode, where no HTTP happens) and the returned value. -/
structure MergeOutcome where
  payload : Option Val
  result : Val
  deriving Repr

/-- `github_service.merge_pull_request` (github_service.py:138-193).
In mock mode a canned dict is returned.  Otherwise, when the given
commit title or message is falsy, both are synthesized from the fetched
PR (`Merge PR #<n>: <title>` and the PR body), falling back to the
fixed `Merge PR #<n>` / `Merge pull request #<n>` strings when the
fetch raises; `merge_data` always carries `merge_method` and carries
title/message only when truthy; the response JSON gets both written
back unconditionally. -/
def merge_pull_request (env : MergeEnv) (owner repo : String) (pr_number : Int)
    (commit_title : Val := .vnull) (commit_message : Val := .vnull)
    (merge_method : Val := .vstr "merge") : MergeOutcome :=
  if env.github_mock then
    { payload := none
      result := .vdict
        [("merged", .vbool true),
         ("message", .vstr "Pull Request successfully merged"),
         ("commit_sha", .vstr "abc123def456"),
         ("merge_method", merge_method),
         ("commit_title",
          if commit_title.truthy then commit_title
          else .vstr ("Merge PR #" ++ toString pr_number)),
         ("commit_message",
          if commit_message.truthy then commit_message
          else .vstr ("Merge pull request #" ++ toString pr_number))] }
  else
    let tm :=
      if !commit_title.truthy || !commit_message.truthy then
        match env.fetchPR with
        | some pr_data =>
            (if !commit_title.truthy then
               Val.vstr ("Merge PR #" ++ toString pr_number ++ ": "
                 ++ pyStr (pr_data.pyGetD "title" (.vstr "")))
             else commit_title,
             if !commit_message.truthy then
               pr_data.pyGetD "body" (.vstr ("Merge pull request #" ++ toString pr_number))
             else commit_message)
        | none =>
            (if !commit_title.truthy then
               Val.vstr ("Merge PR #" ++ toString pr_number)
             else commit_title,
             if !commit_message.truthy then
               Val.vstr ("Merge pull request #" ++ toString pr_number)
             else commit_message)
      else (commit_title, commit_message)
    let merge_data := [("merge_method", merge_method)]
    let merge_data := if tm.1.truthy then merge_data ++ [("commit_title", tm.1)] else merge_data
    let merge_data := if tm.2.truthy then merge_data ++ [("commit_message", tm.2)] else merge_data
    let result := (env.putResult.dictSet "commit_title" tm.1).dictSet "commit_message" tm.2
    { payload := some (.vdict merge_data), result := result }

/-- `run_github_merge_pull_request` (runners.py:99-100) as invoked via
`runner(**args)`: the optional keyword arguments `commit_title`,
`commit_message`, `merge_method` take the Python defaults `None`,
`None`, `"merge"` when absent from the model-supplied argument dict. -/
def run_github_merge_pull_request (env : MergeEnv) (owner repo : String)
    (pr_number : Int) (args : List (String × Val)) : MergeOutcome :=
  merge_pull_request env owner repo pr_number
    ((alookup args "commit_title").getD .vnull)
    ((alookup args "commit_message").getD .vnull)
    ((alookup args "merge_method").getD (.vstr "merge"))

/-- The keys of the `ALL_TOOL_RUNNERS` registry
(adk_tools/`__init__`.py:33-58). -/
def ALL_TOOL_RUNNERS_KEYS : List String :=
  ["jira_fetch_issue",
   "jira_get_projects",
   "jira_get_issues_for_project",
   "jira_create_issue",
   "jira_assign_issue",
   "jira_get_possible_transitions",
   "jira_transition_issue",
   "jira_comment_issue",
   "jira_get_sprints",
   "jira_move_issue_to_sprint",
   "github_get_repos",
   "github_get_branches",
   "github_create_branch",
   "github_create_pull_request",
   "github_merge_pull_request",
   "github_close_pull_request",
   "github_get_issues",
   "github_create_issue",
   "github_comment_issue",
   "email_send",
   "regenerate_email_summary",
   "finalize_email_summary"]

/-- The `ALL_TOOL_RUNNERS` mapping (adk_tools/`__init__`.py:33-58):
lookup is by the concrete key set; the runner bodies perform HTTP/SMTP
and are supplied as the `impl` oracle (`Except.error` models a raised
exception, including a `**args` binding `TypeError`). -/
def ALL_TOOL_RUNNERS (impl : String → List (String × Val) → Except String Val) :
    String → Option (List (String × Val) → Except String Val) :=
  fun n => if ALL_TOOL_RUNNERS_KEYS.contains n then some (impl n) else none

/-- A model-emitted function-call part (`p.function_call`): a name and
an argument dict. -/
structure FunctionCall where
  name : String
  args : List (String × Val)
  deriving Repr

/-- One response of `generate_content_async` as the orchestrator reads
it: whether `response.candidates[0].content.parts` can be read at all
(coordinator.py:395-398), the function-call parts it holds, and
`response.text` (`none` models the read raising, as it does when the
response carries only function calls). -/
structure ModelResp where
  partsOk : Bool
  fcs : List FunctionCall
  text : Option String
  deriving Repr

/-- External collaborators of one `GeminiToolsAgent.run` invocation
(coordinator.py:371-689), supplied as oracles:

* `now` — the ISO timestamp `datetime.now()` yields during this turn;
* `jira_default_project_key` — `settings.jira_default_project_key`;
* `runners` — the tool-runner registry (normally `ALL_TOOL_RUNNERS impl`);
  invoking a runner yields a value or a raised exception message;
* `responses` — the successive answers of the tool-enabled Gemini model
  on this run; an exhausted list models `generate_content_async`
  raising (first call: the plain-model fallback; later calls: `break`);
* `plainText` — the text of the toolless fallback model call
  (coordinator.py:386-388), with `getattr(resp, "text", None)`
  collapsing a missing text to `""`;
* `summaryAttempt` — the one-sentence summary model call
  (coordinator.py:590-603): exception, missing text, or a text;
* `prCreateEnrich`/`prCloseEnrich` — the e-mail notification workflows
  spliced into a successful `github_create_pull_request` /
  `github_close_pull_request` result (coordinator.py:451-583); both
  rework only that result value via further model/SMTP effects. -/
structure AgentEnv where
  now : String
  jira_default_project_key : Option String
  runners : String → Option (List (String × Val) → Except String Val)
  responses : List ModelResp
  plainText : Option String
  summaryAttempt : Val → Except Unit (Option String)
  prCreateEnrich : String → List (String × Val) → Val → Val
  prCloseEnrich : String → List (String × Val) → Val → Val

/-- Argument normalization applied before dispatch
(coordinator.py:415-429): Jira issue-creation defaults
(`project_key` from settings, `title` renamed to `summary`, placeholder
`description`, `issuetype_name` `Task`) and the `source_branch` default
for branch creation. -/
def normalizeArgs (jiraKey : Option String) (name : String)
    (args : List (String × Val)) : List (String × Val) :=
  if name = "jira_create_issue" then
    let args :=
      if !truthyOpt (alookup args "project_key") && strOptTruthy jiraKey then
        aset args "project_key" (.vstr (jiraKey.getD ""))
      else args
    let args :=
      if akey args "title" && !akey args "summary" then
        aset (aremove args "title") "summary" ((alookup args "title").getD .vnull)
      else args
    let args :=
      if !akey args "description" then aset args "description" (.vstr "Created via agent")
      else args
    let args :=
      if !akey args "issuetype_name" then aset args "issuetype_name" (.vstr "Task")
      else args
    args
  else if name = "github_create_branch" then
    if !akey args "source_branch" || !truthyOpt (alookup args "source_branch") then
      aset args "source_branch" (.vstr "main")
    else args
  else args

/-- The audit record `{"name": name, "args": args}` appended to
`collected_tool_calls` (coordinator.py:440). -/
def toolCallVal (name : String) (args : List (String × Val)) : Val :=
  .vdict [("name", .vstr name), ("args", .vdict args)]

/-- One entry of `tool_results`: the function's name plus the response
stored under `function_response` (coordinator.py:443-447). -/
structure ToolSlot where
  name : String
  response : Val
  deriving Repr

/-- The post-success enrichment of coordinator.py:450-584: only a
created PR carrying a `number` attribute or a closed PR whose dict
state is `"closed"`, and only when the raw prompt mentions `email` or
`notify`, gets its result reworked by the corresponding workflow. -/
def applyEnrichment (env : AgentEnv) (prompt name : String)
    (args : List (String × Val)) (result : Val) : Val :=
  if name = "github_create_pull_request" && result.hasAttr "number" then
    if strContains prompt.toLower "email" || strContains prompt.toLower "notify" then
      env.prCreateEnrich prompt args result
    else result
  else if name = "github_close_pull_request"
      && (match result.pyGet "state" with | some (.vstr s) => s == "closed" | _ => false) then
    if strContains prompt.toLower "email" || strContains prompt.toLower "notify" then
      env.prCloseEnrich prompt args result
    else result
  else result

/-- Outcome of dispatching the function calls of one model turn: either
the `email_send`-without-recipient short circuit (with the audit list
and the runner invocations made so far), or completion with the audit
list, result slots, the `any_tool_called` flag and the invocations. -/
inductive BatchOutcome where
  | emailRequired (collected : List Val) (trace : List (String × List (String × Val)))
  | done (collected : List Val) (results : List ToolSlot) (anyCalled : Bool)
      (trace : List (String × List (String × Val)))
  deriving Repr

/-- The `for fc in function_calls` dispatch loop of one model turn
(coordinator.py:406-586): skip blank names, normalize arguments,
short-circuit an `email_send` without a truthy `to`, record the audit
entry, look up the runner (recording `Unknown tool: <name>` when
absent), invoke it (recording `{error: str(ex)}` on an exception),
and splice in the PR e-mail enrichment on success.  `trace` records
each actual runner invocation. -/
def processCalls (env : AgentEnv) (prompt : String) :
    List FunctionCall → List Val → List ToolSlot → Bool →
    List (String × List (String × Val)) → BatchOutcome
  | [], col, res, any, tr => .done col res any tr
  | fc :: rest, col, res, any, tr =>
      if pyStrip fc.name = "" then processCalls env prompt rest col res any tr
      else
        let name := pyStrip fc.name
        let args := normalizeArgs env.jira_default_project_key name fc.args
        if name = "email_send" && !truthyOpt (alookup args "to") then
          .emailRequired (col ++ [toolCallVal name args]) tr
        else
          let col := col ++ [toolCallVal name args]
          match env.runners name with
          | none =>
              processCalls env prompt rest col
                (res ++ [⟨name, .vdict [("error", .vstr ("Unknown tool: " ++ name))]⟩]) any tr
          | some runner =>
              let tr := tr ++ [(name, args)]
              match runner args with
              | .error ex =>
                  processCalls env prompt rest col
                    (res ++ [⟨name, .vdict [("error", .vstr ex)]⟩]) any tr
              | .ok r =>
                  let r := applyEnrichment env prompt name args r
                  processCalls env prompt rest col (res ++ [⟨name, r⟩]) true tr

/-- The hand-written summary used when the summary model call raises
(coordinator.py:604-612), keyed on substrings of the first audited
tool name. -/
def fallbackSummary (collected : List Val) : String :=
  let tool_name :=
    match (collected.headD .vnull).pyGetD "name" (.vstr "tool") with
    | .vstr s => s
    | _ => "tool"
  if strContains tool_name "jira_get_projects" then
    "Retrieved the list of available Jira projects."
  else if strContains tool_name "jira_get_issues" then
    "Retrieved the list of Jira issues for the project."
  else "Executed " ++ tool_name ++ " successfully."

/-- Assembly of the immediate-return result after tools ran
(coordinator.py:588-623): a single slot is unwrapped and given a
model summary (or the fallback summary on a summary-call exception, or
`None` when the summary response lacks text); several slots are
returned as a list with a `None` summary. -/
def buildToolResult (env : AgentEnv) (collected : List Val)
    (results : List ToolSlot) : Val :=
  match results with
  | [slot] =>
      let model_summary :=
        match env.summaryAttempt slot.response with
        | .error _ => Val.vstr (fallbackSummary collected)
        | .ok none => Val.vnull
        | .ok (some s) => Val.vstr s
      .vdict [("result", slot.response), ("toolCalls", .vlist collected),
              ("model_summary", model_summary)]
  | _ =>
      .vdict [("result", .vlist (results.map ToolSlot.response)),
              ("toolCalls", .vlist collected), ("model_summary", .vnull)]

/-- The detail message of the `email_required` short circuit
(coordinator.py:438). -/
def emailRequiredDetails : String :=
  "Recipient email address is required. Please provide \x27to\x27 (e.g., david@example.com)."

/-- The full `email_required` response object (coordinator.py:434-439). -/
def emailRequiredVal (collected : List Val) : Val :=
  .vdict [("error", .vstr "email_required"), ("toolCalls", .vlist collected),
          ("model_summary", .vnull), ("details", .vstr emailRequiredDetails)]

/-- What `run` hands back: either the structured dict result, or the
bare string the toolless fallback returns (coordinator.py:388). -/
inductive RunResponse where
  | dict (v : Val)
  | plain (s : String)
  deriving Repr

/-- Result of one orchestrator run: the response, the context-service
state after the run, and the trace of runner invocations. -/
structure RunResult where
  response : RunResponse
  svc : ContextService
  trace : List (String × List (String × Val))

/-- The save performed on the returning paths of `run`
(`context.add_conversation(prompt, result)` then
`context_service.save_context()`, e.g. coordinator.py:626-627): the
context fetched at the start of the run absorbs the turn and the file
is overwritten with it. -/
def saveTurn (env : AgentEnv) (ctx : SessionContext) (svc : ContextService)
    (prompt : String) (result : Val) : ContextService :=
  let ctx := ctx.add_conversation env.now prompt result
  ContextService.save_context { svc with current_context := some ctx }

/-- The code after the dispatch loop exits (coordinator.py:637-689):
read `response.text` and return it as result/summary (or the
no-text-no-tool error); when the read raises, re-inspect the parts and
surface either the function-call debug error or the generic read
failure.  Every branch here appends the conversation and saves. -/
def finishText (env : AgentEnv) (ctx : SessionContext) (svc : ContextService)
    (prompt : String) (r : ModelResp) (any : Bool) (collected : List Val)
    (results : List ToolSlot)
    (tr : List (String × List (String × Val))) : RunResult :=
  match r.text with
  | some final_text =>
      let result :=
        if (final_text = "" || pyStrip final_text = "") && !any then
          Val.vdict
            [("error", .vstr "Model did not produce a final text and no tool was called."),
             ("toolCalls", .vlist collected)]
        else
          let tool_results_data :=
            if any && !results.isEmpty then
              let data := results.map ToolSlot.response
              if data.length = 1 then data.headD .vnull else .vlist data
            else Val.vnull
          Val.vdict
            [("result", tool_results_data), ("toolCalls", .vlist collected),
             ("model_summary", .vstr final_text)]
      { response := .dict result, svc := saveTurn env ctx svc prompt result, trace := tr }
  | none =>
      if r.partsOk then
        let fcs := r.fcs.map fun fc => toolCallVal fc.name fc.args
        let result :=
          if !fcs.isEmpty then
            Val.vdict
              [("error", .vstr "Failed to read model text; model returned function_call parts."),
               ("toolCalls", .vlist fcs)]
          else Val.vdict [("error", .vstr "Failed to read model response.")]
        { response := .dict result, svc := saveTurn env ctx svc prompt result, trace := tr }
      else
        let result := Val.vdict [("error", .vstr "Failed to read model response.")]
        { response := .dict result, svc := saveTurn env ctx svc prompt result, trace := tr }

/-- The `while True` tool-calling loop (coordinator.py:393-635): a
response without readable parts or function calls falls through to the
text path; a dispatched batch either short-circuits on `email_required`
(returning with NO context save), returns the built tool result with a
save, or — when nothing was actually invoked — feeds back into the next
model response (an exhausted oracle models the continuation call
raising, which breaks to the text path on the current response). -/
def runLoop (env : AgentEnv) (ctx : SessionContext) (svc : ContextService)
    (prompt : String) : ModelResp → List ModelResp → Bool → List Val →
    List ToolSlot → List (String × List (String × Val)) → RunResult
  | r, rest, any, col, lastResults, tr =>
      if !r.partsOk || r.fcs.isEmpty then
        finishText env ctx svc prompt r any col lastResults tr
      else
        match processCalls env prompt r.fcs col [] any tr with
        | .emailRequired col' tr' =>
            { response := .dict (emailRequiredVal col'), svc := svc, trace := tr' }
        | .done col' res' any' tr' =>
            if any' && !res'.isEmpty then
              let result := buildToolResult env col' res'
              { response := .dict result
                svc := saveTurn env ctx svc prompt result
                trace := tr' }
            else
              match rest with
              | [] => finishText env ctx svc prompt r any' col' res' tr'
              | r' :: rest' => runLoop env ctx svc prompt r' rest' any' col' res' tr'

/-- `GeminiToolsAgent.run` (coordinator.py:371-689): fetch or create
the (global) session context — `session_id` is accepted and ignored —
build the context-enhanced prompt (it only feeds the model, which is
the `responses` oracle here), fall back to a bare plain-model text when
the first model call raises (no context save on that path), and
otherwise enter the tool-calling loop. -/
def GeminiToolsAgent.run (env : AgentEnv) (svc : ContextService)
    (prompt : String) (session_id : Option String) : RunResult :=
  let gc := svc.get_or_create_context session_id
  match env.responses with
  | [] => { response := .plain (env.plainText.getD ""), svc := gc.2, trace := [] }
  | r :: rest => runLoop env gc.1 gc.2 prompt r rest false [] [] []

/-- The `POST /adk/agent` handler body relevant to these claims
(main.py:44-59): a literal (stripped) prompt `/clearcontext` resets the
context store and answers with a fixed confirmation without running the
agent; any other prompt runs the agent and normalizes a non-dict
response into the stable schema. -/
def run_adk (agentRun : String → Option String → ContextService → RunResult)
    (svc : ContextService) (prompt : String) (session_id : Option String) :
    RunResponse × ContextService :=
  if pyStrip prompt = "/clearcontext" then
    let cc := svc.clear_context
    (.dict (.vdict
      [("result", .vstr "Context cleared successfully. Starting fresh session."),
       ("toolCalls", .vlist []),
       ("model_summary", .vstr "Session context has been reset.")]), cc.2)
  else
    let out := agentRun prompt session_id svc
    (match out.response with
     | .dict v =>
         if v.hasKey "result" || v.hasKey "error" || v.hasKey "toolCalls" then .dict v
         else .dict (.vdict [("result", v), ("toolCalls", .vlist []), ("model_summary", .vnull)])
     | .plain s =>
         .dict (.vdict [("result", .vstr s), ("toolCalls", .vlist []), ("model_summary", .vnull)]),
     out.svc)

/-! Theorems about the claims. -/

/-- C9: the `session_id` parameter has no effect: for any two session
identifiers (including none) and the same stored state, get-or-create
returns the same context and the orchestrator run produces the same
result — all sessions share the one context file. -/
theorem session_id_noninterference (env : AgentEnv) (svc : ContextService)
    (prompt : String) (sid₁ sid₂ : Option String) :
    svc.get_or_create_context sid₁ = svc.get_or_create_context sid₂
    ∧ GeminiToolsAgent.run env svc prompt sid₁ = GeminiToolsAgent.run env svc prompt sid₂ :=
  ⟨rfl, rfl⟩

/-- C6: a literal `/clearcontext` prompt resets the store to an empty
context and returns the fixed confirmation without running the agent
(the response does not depend on which agent function is supplied), and
clearing twice yields the empty context both times with no error. -/
theorem clearcontext_resets_and_is_idempotent
    (agentRun agentRun' : String → Option String → ContextService → RunResult)
    (svc : ContextService) (sid : Option String) :
    (run_adk agentRun svc "/clearcontext" sid).1
      = .dict (.vdict
          [("result", .vstr "Context cleared successfully. Starting fresh session."),
           ("toolCalls", .vlist []),
           ("model_summary", .vstr "Session context has been reset.")])
    ∧ (run_adk agentRun svc "/clearcontext" sid).2.current_context
        = some { SessionContext.empty with session_id := "global_context" }
    ∧ run_adk agentRun (run_adk agentRun svc "/clearcontext" sid).2 "/clearcontext" sid
        = run_adk agentRun svc "/clearcontext" sid
    ∧ run_adk agentRun svc "/clearcontext" sid = run_adk agentRun' svc "/clearcontext" sid := by
  have htrim : pyStrip "/clearcontext" = "/clearcontext" := by decide
  refine ⟨?_, ?_, ?_, ?_⟩ <;>
    simp [run_adk, htrim, ContextService.clear_context]

/-- C10: a stored context file whose `conversation_history`,
`current_repository` and `recent_actions` are all falsy (empty or
absent) is discarded entirely — whatever its other fields hold — and
get-or-create returns a fresh empty context with session id
`global_context`; a corrupt or unreadable file gets the same treatment. -/
theorem get_or_create_ignores_meaningless_stored (svc : ContextService)
    (sid : Option String) (data : Val)
    (hfile : svc.file = .stored data)
    (hch : (data.pyGetD "conversation_history" .vnull).truthy = false)
    (hcr : (data.pyGetD "current_repository" .vnull).truthy = false)
    (hra : (data.pyGetD "recent_actions" .vnull).truthy = false) :
    svc.get_or_create_context sid = ContextService.newGlobal svc
    ∧ (svc.get_or_create_context sid).1
        = { SessionContext.empty with session_id := "global_context" }
    ∧ ∀ svc' : ContextService, svc'.file = .corrupt →
        svc'.get_or_create_context sid = ContextService.newGlobal svc' := by
  have hmain : svc.get_or_create_context sid = ContextService.newGlobal svc := by
    simp [ContextService.get_or_create_context, hfile, hch, hcr, hra]
  refine ⟨hmain, ?_, ?_⟩
  · rw [hmain]; rfl
  · intro svc' h
    simp [ContextService.get_or_create_context, h]

/-- A stored context whose only content is a recent Jira project list
(no conversation history, repository or actions). -/
def dataMeaningless : Val :=
  .vdict
    [("session_id", .vstr "global_context"),
     ("conversation_history", .vlist []),
     ("current_repository", .vnull),
     ("recent_jira_projects", .vlist [.vdict [("key", .vstr "TP"), ("name", .vstr "Platform")]]),
     ("recent_prs", .vlist [.vdict [("id", .vint 1), ("number", .vint 4)]])]

/-- The service state holding `dataMeaningless` on disk. -/
def svcMeaningless : ContextService :=
  { file := .stored dataMeaningless, current_context := none }

/-- Witness for C10: the concrete stored file `dataMeaningless` is
non-trivial yet get-or-create returns the fresh global context. -/
theorem get_or_create_ignores_meaningless_stored_witness :
    svcMeaningless.file = .stored dataMeaningless
    ∧ (svcMeaningless.get_or_create_context (some "alice")).1
        = { SessionContext.empty with session_id := "global_context" } :=
  ⟨rfl, (get_or_create_ignores_meaningless_stored svcMeaningless (some "alice")
    dataMeaningless rfl (by decide) (by decide) (by decide)).2.1⟩

/-- Helper: appending to a nonempty string stays nonempty. -/
theorem strAppend_ne_empty (a b : String) (h : a ≠ "") : a ++ b ≠ "" := by
  intro hab
  apply h
  have h2 := congrArg String.data hab
  simp only [String.data_append] at h2
  rcases List.append_eq_nil.mp h2 with ⟨ha, _⟩
  cases a
  simpa [String.ext_iff] using ha

/-- Helper: a nonempty string literal is truthy. -/
theorem vstr_truthy (s : String) (h : s ≠ "") : Val.truthy (.vstr s) = true := by
  simp [Val.truthy, h]

/-- Helper: `None` is falsy. -/
theorem truthy_vnull : Val.truthy .vnull = false := rfl

/-- C8: a merge call whose arguments do not supply `merge_method` sends
the merge with `merge_method` `"merge"`; when `commit_title` /
`commit_message` are not supplied they are synthesized from the fetched
PR's title and body, falling back to the fixed `Merge PR #<n>` /
`Merge pull request #<n>` strings when the PR cannot be fetched. -/
theorem merge_pull_request_defaults (env : MergeEnv) (owner repo : String)
    (n : Int) (args : List (String × Val))
    (hmock : env.github_mock = false)
    (hmm : alookup args "merge_method" = none)
    (hct : alookup args "commit_title" = none)
    (hcm : alookup args "commit_message" = none) :
    ∃ fs, (run_github_merge_pull_request env owner repo n args).payload = some (.vdict fs)
      ∧ alookup fs "merge_method" = some (.vstr "merge")
      ∧ (∀ pr t b, env.fetchPR = some pr →
            pr.pyGet "title" = some (.vstr t) → pr.pyGet "body" = some (.vstr b) → b ≠ "" →
            alookup fs "commit_title"
              = some (.vstr ("Merge PR #" ++ toString n ++ ": " ++ t))
            ∧ alookup fs "commit_message" = some (.vstr b))
      ∧ (env.fetchPR = none →
            alookup fs "commit_title" = some (.vstr ("Merge PR #" ++ toString n))
            ∧ alookup fs "commit_message"
                = some (.vstr ("Merge pull request #" ++ toString n))) := by
  unfold run_github_merge_pull_request merge_pull_request
  rw [hmm, hct, hcm, hmock]
  simp only [Option.getD_none, Option.getD_some, Bool.false_eq_true, if_false]
  cases hfetch : env.fetchPR with
  | some pr =>
      have hT : ("Merge PR #" ++ toString n ++ ": " ++ pyStr (pr.pyGetD "title" (.vstr ""))) ≠ "" :=
        strAppend_ne_empty _ _ (strAppend_ne_empty _ _ (strAppend_ne_empty _ _ (by decide)))
      simp only [truthy_vnull, Bool.not_false, Bool.true_or, if_true, hfetch,
        vstr_truthy _ hT]
      refine ⟨_, rfl, ?_, ?_, ?_⟩
      · by_cases hb : (pr.pyGetD "body" (.vstr ("Merge pull request #" ++ toString n))).truthy
          <;> simp [hb, hT, alookup]
      · intro pr' t b hpr ht hb hbne
        obtain rfl : pr = pr' := Option.some.inj hpr
        have htD : pr.pyGetD "title" (.vstr "") = .vstr t := by
          simp [Val.pyGetD, ht]
        have hbD : pr.pyGetD "body" (.vstr ("Merge pull request #" ++ toString n)) = .vstr b := by
          simp [Val.pyGetD, hb]
        rw [htD] at hT ⊢
        rw [hbD]
        simp [hbne, alookup, Val.truthy, pyStr]
      · intro h; simp at h
  | none =>
      have hT : ("Merge PR #" ++ toString n) ≠ "" :=
        strAppend_ne_empty _ _ (by decide)
      have hM : ("Merge pull request #" ++ toString n) ≠ "" :=
        strAppend_ne_empty _ _ (by decide)
      simp only [truthy_vnull, Bool.not_false, Bool.true_or, if_true, hfetch,
        vstr_truthy _ hT, vstr_truthy _ hM]
      refine ⟨_, rfl, ?_, ?_, ?_⟩
      · simp [alookup]
      · intro pr t b hpr; simp at hpr
      · intro _
        simp [alookup]

/-- A concrete merge environment: real mode, PR fetch succeeds with a
title and body. -/
def envMergeW : MergeEnv :=
  { github_mock := false
    fetchPR := some (.vdict [("title", .vstr "Add feature"), ("body", .vstr "Implements X")])
    putResult := .vdict [("merged", .vbool true)] }

/-- Witness for C8: merging PR 4 with no optional arguments supplied
sends `merge_method` `"merge"` and synthesizes title/message from the
fetched PR. -/
theorem merge_pull_request_defaults_witness :
    envMergeW.github_mock = false
    ∧ alookup ([] : List (String × Val)) "merge_method" = none
    ∧ (∃ fs, (run_github_merge_pull_request envMergeW "octo" "demo" 4 []).payload
          = some (.vdict fs)
        ∧ alookup fs "merge_method" = some (.vstr "merge")
        ∧ (∀ pr t b, envMergeW.fetchPR = some pr →
              pr.pyGet "title" = some (.vstr t) → pr.pyGet "body" = some (.vstr b) → b ≠ "" →
              alookup fs "commit_title"
                = some (.vstr ("Merge PR #" ++ toString (4 : Int) ++ ": " ++ t))
              ∧ alookup fs "commit_message" = some (.vstr b))
        ∧ (envMergeW.fetchPR = none →
              alookup fs "commit_title" = some (.vstr ("Merge PR #" ++ toString (4 : Int)))
              ∧ alookup fs "commit_message"
                  = some (.vstr ("Merge pull request #" ++ toString (4 : Int))))) :=
  ⟨rfl, rfl, merge_pull_request_defaults envMergeW "octo" "demo" 4 [] rfl rfl rfl rfl⟩

/-- Helper: serialization preserves list length. -/
theorem serializeList_length (l : List Val) : (serializeList l).length = l.length := by
  induction l with
  | nil => rfl
  | cons v vs ih => simp [serializeList, ih]

/-- Helper: `optVal` preserves truthiness. -/
theorem truthy_optVal (o : Option Val) : (optVal o).truthy = truthyOpt o := by
  cases o <;> rfl

/-- A context whose only content is one recent Jira project. -/
def ctxOnlyProjects : SessionContext :=
  { SessionContext.empty with
      session_id := "global_context"
      recent_jira_projects := [.vdict [("key", .vstr "TP"), ("name", .vstr "Platform")]] }

/-- A service state holding `ctxOnlyProjects` in memory, nothing yet on
disk. -/
def svcOnlyProjects : ContextService :=
  { file := .absent, current_context := some ctxOnlyProjects }

/-- C4 counterexample: saving a context whose only content is a
one-element `recent_jira_projects` list and reloading via get-or-create
loses that list — the reloaded context is fresh and empty, because the
stored file has no conversation history, current repository or recent
actions and is therefore discarded. -/
theorem context_roundtrip_fails_counterexample :
    ctxOnlyProjects.recent_jira_projects.length = 1
    ∧ ((svcOnlyProjects.save_context).get_or_create_context
        (some "s")).1.recent_jira_projects.length = 0 :=
  ⟨rfl, rfl⟩

/-- C4 (amended): for a session context that has meaningful content
(nonempty conversation history, a truthy current repository, or
nonempty recent actions) and whose recent lists hold plain JSON data
(are unchanged by serialization), saving and then reloading via
get-or-create reproduces all six `recent_*` lists exactly; in
particular lengths within the caps (5/5/5/5/5, actions 10) before the
save remain within the caps after the reload. -/
theorem context_roundtrip_meaningful (svc : ContextService)
    (ctx : SessionContext) (sid : Option String)
    (hcur : svc.current_context = some ctx)
    (hmean : ctx.conversation_history ≠ [] ∨ truthyOpt ctx.current_repository = true
             ∨ ctx.recent_actions ≠ [])
    (hs1 : serializeList ctx.recent_issues = ctx.recent_issues)
    (hs2 : serializeList ctx.recent_prs = ctx.recent_prs)
    (hs3 : serializeList ctx.recent_jira_projects = ctx.recent_jira_projects)
    (hs4 : serializeList ctx.recent_jira_issues = ctx.recent_jira_issues)
    (hs5 : serializeList ctx.recent_jira_sprints = ctx.recent_jira_sprints)
    (hs6 : serializeList ctx.recent_actions = ctx.recent_actions) :
    ((svc.save_context).get_or_create_context sid).1.recent_issues = ctx.recent_issues
    ∧ ((svc.save_context).get_or_create_context sid).1.recent_prs = ctx.recent_prs
    ∧ ((svc.save_context).get_or_create_context sid).1.recent_jira_projects
        = ctx.recent_jira_projects
    ∧ ((svc.save_context).get_or_create_context sid).1.recent_jira_issues
        = ctx.recent_jira_issues
    ∧ ((svc.save_context).get_or_create_context sid).1.recent_jira_sprints
        = ctx.recent_jira_sprints
    ∧ ((svc.save_context).get_or_create_context sid).1.recent_actions = ctx.recent_actions
    ∧ (ctx.recent_issues.length ≤ 5 →
        ((svc.save_context).get_or_create_context sid).1.recent_issues.length ≤ 5)
    ∧ (ctx.recent_prs.length ≤ 5 →
        ((svc.save_context).get_or_create_context sid).1.recent_prs.length ≤ 5)
    ∧ (ctx.recent_jira_projects.length ≤ 5 →
        ((svc.save_context).get_or_create_context sid).1.recent_jira_projects.length ≤ 5)
    ∧ (ctx.recent_jira_issues.length ≤ 5 →
        ((svc.save_context).get_or_create_context sid).1.recent_jira_issues.length ≤ 5)
    ∧ (ctx.recent_jira_sprints.length ≤ 5 →
        ((svc.save_context).get_or_create_context sid).1.recent_jira_sprints.length ≤ 5)
    ∧ (ctx.recent_actions.length ≤ 10 →
        ((svc.save_context).get_or_create_context sid).1.recent_actions.length ≤ 10) := by
  have hfile : (svc.save_context).file = .stored ctx.to_dict := by
    simp [ContextService.save_context, hcur]
  have hdt : Val.truthy ctx.to_dict = true := by
    simp [SessionContext.to_dict, Val.truthy]
  have hch : (ctx.to_dict.pyGetD "conversation_history" .vnull)
      = .vlist (serializeList ctx.conversation_history) := by
    simp [SessionContext.to_dict, Val.pyGetD, Val.pyGet, alookup]
  have hcr : (ctx.to_dict.pyGetD "current_repository" .vnull)
      = optVal ctx.current_repository := by
    simp [SessionContext.to_dict, Val.pyGetD, Val.pyGet, alookup]
  have hra : (ctx.to_dict.pyGetD "recent_actions" .vnull)
      = .vlist (serializeList ctx.recent_actions) := by
    simp [SessionContext.to_dict, Val.pyGetD, Val.pyGet, alookup]
  have hcond : ((ctx.to_dict.pyGetD "conversation_history" .vnull).truthy
      || (ctx.to_dict.pyGetD "current_repository" .vnull).truthy
      || (ctx.to_dict.pyGetD "recent_actions" .vnull).truthy) = true := by
    rw [hch, hcr, hra, truthy_optVal]
    rcases hmean with h | h | h
    · have hlen : (serializeList ctx.conversation_history).length ≠ 0 := by
        rw [serializeList_length]
        simpa [List.length_eq_zero] using h
      have hne : serializeList ctx.conversation_history ≠ [] := by
        intro he; exact hlen (by rw [he]; rfl)
      simp [Val.truthy, hne]
    · simp [h]
    · have hlen : (serializeList ctx.recent_actions).length ≠ 0 := by
        rw [serializeList_length]
        simpa [List.length_eq_zero] using h
      have hne : serializeList ctx.recent_actions ≠ [] := by
        intro he; exact hlen (by rw [he]; rfl)
      simp [Val.truthy, hne]
  have hload : ((svc.save_context).get_or_create_context sid).1
      = SessionContext.from_dict ctx.to_dict := by
    simp only [ContextService.get_or_create_context, hfile]
    rw [if_pos (by rw [hdt, hcond]; rfl)]
  have e1 : (SessionContext.from_dict ctx.to_dict).recent_issues = ctx.recent_issues := by
    simp [SessionContext.from_dict, SessionContext.to_dict, Val.pyGetD, Val.pyGet,
      alookup, Val.asList, hs1]
  have e2 : (SessionContext.from_dict ctx.to_dict).recent_prs = ctx.recent_prs := by
    simp [SessionContext.from_dict, SessionContext.to_dict, Val.pyGetD, Val.pyGet,
      alookup, Val.asList, hs2]
  have e3 : (SessionContext.from_dict ctx.to_dict).recent_jira_projects
      = ctx.recent_jira_projects := by
    simp [SessionContext.from_dict, SessionContext.to_dict, Val.pyGetD, Val.pyGet,
      alookup, Val.asList, hs3]
  have e4 : (SessionContext.from_dict ctx.to_dict).recent_jira_issues
      = ctx.recent_jira_issues := by
    simp [SessionContext.from_dict, SessionContext.to_dict, Val.pyGetD, Val.pyGet,
      alookup, Val.asList, hs4]
  have e5 : (SessionContext.from_dict ctx.to_dict).recent_jira_sprints
      = ctx.recent_jira_sprints := by
    simp [SessionContext.from_dict, SessionContext.to_dict, Val.pyGetD, Val.pyGet,
      alookup, Val.asList, hs5]
  have e6 : (SessionContext.from_dict ctx.to_dict).recent_actions = ctx.recent_actions := by
    simp [SessionContext.from_dict, SessionContext.to_dict, Val.pyGetD, Val.pyGet,
      alookup, Val.asList, hs6]
  rw [hload]
  exact ⟨e1, e2, e3, e4, e5, e6,
    fun h => by rw [e1]; exact h, fun h => by rw [e2]; exact h,
    fun h => by rw [e3]; exact h, fun h => by rw [e4]; exact h,
    fun h => by rw [e5]; exact h, fun h => by rw [e6]; exact h⟩

/-- A context with meaningful content (one conversation turn) and
JSON-only recent lists. -/
def ctxRoundtripW : SessionContext :=
  { SessionContext.empty with
      session_id := "global_context"
      conversation_history := [.vdict [("user_input", .vstr "list repos")]]
      recent_prs := [.vdict [("id", .vint 7), ("number", .vint 4), ("title", .vstr "Fix")]]
      recent_jira_projects := [.vdict [("key", .vstr "TP"), ("name", .vstr "Platform")]] }

/-- The service state holding `ctxRoundtripW` in memory. -/
def svcRoundtripW : ContextService :=
  { file := .absent, current_context := some ctxRoundtripW }

/-- Witness for C4 (amended): the concrete context `ctxRoundtripW`
satisfies the hypotheses and round-trips its recent lists. -/
theorem context_roundtrip_meaningful_witness :
    svcRoundtripW.current_context = some ctxRoundtripW
    ∧ ctxRoundtripW.conversation_history ≠ []
    ∧ serializeList ctxRoundtripW.recent_prs = ctxRoundtripW.recent_prs
    ∧ ((svcRoundtripW.save_context).get_or_create_context none).1.recent_prs
        = ctxRoundtripW.recent_prs :=
  ⟨rfl, List.cons_ne_nil _ _, rfl,
    (context_roundtrip_meaningful svcRoundtripW ctxRoundtripW none rfl
      (Or.inl (List.cons_ne_nil _ _)) rfl rfl rfl rfl rfl rfl).2.1⟩

/-- C2: a function call whose (stripped, nonblank) name is not a key of
the tool-runner registry is recorded with result slot
`{error: "Unknown tool: <name>"}` and an audit entry, no runner is
invoked for it, and dispatch continues with the remaining calls of the
turn — the computation is exactly the continuation on the rest of the
batch. -/
theorem unknown_tool_nonfatal (env : AgentEnv) (prompt : String)
    (impl : String → List (String × Val) → Except String Val)
    (henv : env.runners = ALL_TOOL_RUNNERS impl)
    (fc : FunctionCall) (rest : List FunctionCall)
    (col : List Val) (res : List ToolSlot) (any : Bool)
    (tr : List (String × List (String × Val)))
    (hname : pyStrip fc.name ≠ "")
    (hkey : pyStrip fc.name ∉ ALL_TOOL_RUNNERS_KEYS) :
    processCalls env prompt (fc :: rest) col res any tr
      = processCalls env prompt rest (col ++ [toolCallVal (pyStrip fc.name) fc.args])
          (res ++ [⟨pyStrip fc.name,
            .vdict [("error", .vstr ("Unknown tool: " ++ pyStrip fc.name))]⟩]) any tr := by
  have h1 : pyStrip fc.name ≠ "jira_create_issue" := by
    intro h; exact hkey (by rw [h]; decide)
  have h2 : pyStrip fc.name ≠ "github_create_branch" := by
    intro h; exact hkey (by rw [h]; decide)
  have h3 : pyStrip fc.name ≠ "email_send" := by
    intro h; exact hkey (by rw [h]; decide)
  have hnorm : normalizeArgs env.jira_default_project_key (pyStrip fc.name) fc.args
      = fc.args := by
    unfold normalizeArgs
    rw [if_neg h1, if_neg h2]
  have hcont : ALL_TOOL_RUNNERS_KEYS.contains (pyStrip fc.name) = false := by
    simpa using hkey
  have hlook : env.runners (pyStrip fc.name) = none := by
    rw [henv]
    unfold ALL_TOOL_RUNNERS
    rw [hcont]
    rfl
  simp only [processCalls]
  rw [if_neg hname, hnorm]
  simp only [h3, decide_eq_true_eq, if_false, Bool.false_and, Bool.false_eq_true, hlook]
  simp

/-- Tool-runner oracle for concrete scenarios: every registered runner
answers `None`. -/
def implNull : String → List (String × Val) → Except String Val :=
  fun _ _ => .ok .vnull

/-- A concrete agent environment over the registry with `implNull`
runners (no model responses; oracles are inert). -/
def envRegistryW : AgentEnv :=
  { now := "2024-01-01T00:00:00"
    jira_default_project_key := none
    runners := ALL_TOOL_RUNNERS implNull
    responses := []
    plainText := none
    summaryAttempt := fun _ => .ok none
    prCreateEnrich := fun _ _ v => v
    prCloseEnrich := fun _ _ v => v }

/-- An unregistered tool call. -/
def fcUnknown : FunctionCall := ⟨"quantum_tool", [("x", .vint 1)]⟩

/-- Witness for C2: the unregistered `quantum_tool` call gets an
`Unknown tool` slot and dispatch proceeds with the rest of the batch. -/
theorem unknown_tool_nonfatal_witness :
    pyStrip fcUnknown.name ≠ ""
    ∧ pyStrip fcUnknown.name ∉ ALL_TOOL_RUNNERS_KEYS
    ∧ processCalls envRegistryW "p" (fcUnknown :: [⟨"github_get_repos", []⟩]) [] [] false []
        = processCalls envRegistryW "p" [⟨"github_get_repos", []⟩]
            ([] ++ [toolCallVal (pyStrip fcUnknown.name) fcUnknown.args])
            ([] ++ [⟨pyStrip fcUnknown.name,
              .vdict [("error", .vstr ("Unknown tool: " ++ pyStrip fcUnknown.name))]⟩])
            false [] :=
  ⟨by decide, by decide,
    unknown_tool_nonfatal envRegistryW "p" implNull rfl fcUnknown
      [⟨"github_get_repos", []⟩] [] [] false [] (by decide) (by decide)⟩

/-- Step lemma: a blank-named call is skipped. -/
theorem processCalls_cons_skip (env : AgentEnv) (prompt : String)
    (fc : FunctionCall) (rest : List FunctionCall) (col : List Val)
    (res : List ToolSlot) (any : Bool) (tr : List (String × List (String × Val)))
    (hb : pyStrip fc.name = "") :
    processCalls env prompt (fc :: rest) col res any tr
      = processCalls env prompt rest col res any tr := by
  simp only [processCalls]
  rw [if_pos hb]

/-- Step lemma: an `email_send` call without a truthy recipient short
circuits with the audit list extended by its record. -/
theorem processCalls_cons_email (env : AgentEnv) (prompt : String)
    (fc : FunctionCall) (rest : List FunctionCall) (col : List Val)
    (res : List ToolSlot) (any : Bool) (tr : List (String × List (String × Val)))
    (hb : ¬ pyStrip fc.name = "")
    (hg : (decide (pyStrip fc.name = "email_send")
      && !truthyOpt (alookup (normalizeArgs env.jira_default_project_key
        (pyStrip fc.name) fc.args) "to")) = true) :
    processCalls env prompt (fc :: rest) col res any tr
      = .emailRequired (col ++ [toolCallVal (pyStrip fc.name)
          (normalizeArgs env.jira_default_project_key (pyStrip fc.name) fc.args)]) tr := by
  simp only [processCalls]
  rw [if_neg hb, if_pos hg]

/-- Step lemma: an unregistered tool gets an error slot and dispatch
continues. -/
theorem processCalls_cons_unknown (env : AgentEnv) (prompt : String)
    (fc : FunctionCall) (rest : List FunctionCall) (col : List Val)
    (res : List ToolSlot) (any : Bool) (tr : List (String × List (String × Val)))
    (hb : ¬ pyStrip fc.name = "")
    (hg : (decide (pyStrip fc.name = "email_send")
      && !truthyOpt (alookup (normalizeArgs env.jira_default_project_key
        (pyStrip fc.name) fc.args) "to")) = false)
    (hlook : env.runners (pyStrip fc.name) = none) :
    processCalls env prompt (fc :: rest) col res any tr
      = processCalls env prompt rest
          (col ++ [toolCallVal (pyStrip fc.name)
            (normalizeArgs env.jira_default_project_key (pyStrip fc.name) fc.args)])
          (res ++ [⟨pyStrip fc.name,
            .vdict [("error", .vstr ("Unknown tool: " ++ pyStrip fc.name))]⟩]) any tr := by
  simp only [processCalls]
  rw [if_neg hb, if_neg (by rw [hg]; simp), hlook]

/-- Step lemma: a runner that raises contributes an exception slot and
dispatch continues. -/
theorem processCalls_cons_error (env : AgentEnv) (prompt : String)
    (fc : FunctionCall) (rest : List FunctionCall) (col : List Val)
    (res : List ToolSlot) (any : Bool) (tr : List (String × List (String × Val)))
    (runner : List (String × Val) → Except String Val) (ex : String)
    (hb : ¬ pyStrip fc.name = "")
    (hg : (decide (pyStrip fc.name = "email_send")
      && !truthyOpt (alookup (normalizeArgs env.jira_default_project_key
        (pyStrip fc.name) fc.args) "to")) = false)
    (hlook : env.runners (pyStrip fc.name) = some runner)
    (hrun : runner (normalizeArgs env.jira_default_project_key
      (pyStrip fc.name) fc.args) = .error ex) :
    processCalls env prompt (fc :: rest) col res any tr
      = processCalls env prompt rest
          (col ++ [toolCallVal (pyStrip fc.name)
            (normalizeArgs env.jira_default_project_key (pyStrip fc.name) fc.args)])
          (res ++ [⟨pyStrip fc.name, .vdict [("error", .vstr ex)]⟩]) any
          (tr ++ [(pyStrip fc.name,
            normalizeArgs env.jira_default_project_key (pyStrip fc.name) fc.args)]) := by
  simp only [processCalls]
  rw [if_neg hb, if_neg (by rw [hg]; simp), hlook]
  simp only []
  rw [hrun]

/-- Step lemma: a successful runner contributes its (possibly enriched)
result, sets the tool-called flag and records the invocation. -/
theorem processCalls_cons_ok (env : AgentEnv) (prompt : String)
    (fc : FunctionCall) (rest : List FunctionCall) (col : List Val)
    (res : List ToolSlot) (any : Bool) (tr : List (String × List (String × Val)))
    (runner : List (String × Val) → Except String Val) (v : Val)
    (hb : ¬ pyStrip fc.name = "")
    (hg : (decide (pyStrip fc.name = "email_send")
      && !truthyOpt (alookup (normalizeArgs env.jira_default_project_key
        (pyStrip fc.name) fc.args) "to")) = false)
    (hlook : env.runners (pyStrip fc.name) = some runner)
    (hrun : runner (normalizeArgs env.jira_default_project_key
      (pyStrip fc.name) fc.args) = .ok v) :
    processCalls env prompt (fc :: rest) col res any tr
      = processCalls env prompt rest
          (col ++ [toolCallVal (pyStrip fc.name)
            (normalizeArgs env.jira_default_project_key (pyStrip fc.name) fc.args)])
          (res ++ [⟨pyStrip fc.name, applyEnrichment env prompt (pyStrip fc.name)
            (normalizeArgs env.jira_default_project_key (pyStrip fc.name) fc.args) v⟩]) true
          (tr ++ [(pyStrip fc.name,
            normalizeArgs env.jira_default_project_key (pyStrip fc.name) fc.args)]) := by
  simp only [processCalls]
  rw [if_neg hb, if_neg (by rw [hg]; simp), hlook]
  simp only []
  rw [hrun]

/-- Helper: a batch that ends in `.done` continues through an appended
suffix with the accumulated state. -/
theorem processCalls_append (env : AgentEnv) (prompt : String) :
    ∀ (xs ys : List FunctionCall) (col : List Val) (res : List ToolSlot)
      (any : Bool) (tr : List (String × List (String × Val)))
      (col' : List Val) (res' : List ToolSlot) (any' : Bool)
      (tr' : List (String × List (String × Val))),
      processCalls env prompt xs col res any tr = .done col' res' any' tr' →
      processCalls env prompt (xs ++ ys) col res any tr
        = processCalls env prompt ys col' res' any' tr' := by
  intro xs
  induction xs with
  | nil =>
      intro ys col res any tr col' res' any' tr' h
      simp only [processCalls] at h
      injection h with h1 h2 h3 h4
      subst h1; subst h2; subst h3; subst h4
      rfl
  | cons fc xs ih =>
      intro ys col res any tr col' res' any' tr' h
      rw [List.cons_append]
      by_cases hb : pyStrip fc.name = ""
      · rw [processCalls_cons_skip env prompt fc _ _ _ _ _ hb] at h
        rw [processCalls_cons_skip env prompt fc _ _ _ _ _ hb]
        exact ih ys _ _ _ _ _ _ _ _ h
      · cases hg : (decide (pyStrip fc.name = "email_send")
            && !truthyOpt (alookup (normalizeArgs env.jira_default_project_key
              (pyStrip fc.name) fc.args) "to")) with
        | true =>
            rw [processCalls_cons_email env prompt fc _ _ _ _ _ hb hg] at h
            cases h
        | false =>
            cases hlook : env.runners (pyStrip fc.name) with
            | none =>
                rw [processCalls_cons_unknown env prompt fc _ _ _ _ _ hb hg hlook] at h
                rw [processCalls_cons_unknown env prompt fc _ _ _ _ _ hb hg hlook]
                exact ih ys _ _ _ _ _ _ _ _ h
            | some runner =>
                cases hrun : runner (normalizeArgs env.jira_default_project_key
                    (pyStrip fc.name) fc.args) with
                | error ex =>
                    rw [processCalls_cons_error env prompt fc _ _ _ _ _ runner ex
                      hb hg hlook hrun] at h
                    rw [processCalls_cons_error env prompt fc _ _ _ _ _ runner ex
                      hb hg hlook hrun]
                    exact ih ys _ _ _ _ _ _ _ _ h
                | ok v =>
                    rw [processCalls_cons_ok env prompt fc _ _ _ _ _ runner v
                      hb hg hlook hrun] at h
                    rw [processCalls_cons_ok env prompt fc _ _ _ _ _ runner v
                      hb hg hlook hrun]
                    exact ih ys _ _ _ _ _ _ _ _ h

/-- Helper: a batch containing no `email_send` call never short
circuits: it completes with `.done`, and every runner invocation it
adds to the trace is named after one of its calls. -/
theorem processCalls_no_email (env : AgentEnv) (prompt : String) :
    ∀ (xs : List FunctionCall) (col : List Val) (res : List ToolSlot)
      (any : Bool) (tr : List (String × List (String × Val))),
      (∀ g ∈ xs, pyStrip g.name ≠ "email_send") →
      ∃ col' res' any' tr',
        processCalls env prompt xs col res any tr = .done col' res' any' tr'
        ∧ ∀ e ∈ tr', e ∈ tr ∨ ∃ g ∈ xs, e.1 = pyStrip g.name := by
  intro xs
  induction xs with
  | nil =>
      intro col res any tr _
      exact ⟨col, res, any, tr, rfl, fun e he => Or.inl he⟩
  | cons fc xs ih =>
      intro col res any tr hno
      have hfc : pyStrip fc.name ≠ "email_send" := hno fc (List.mem_cons_self fc xs)
      have hxs : ∀ g ∈ xs, pyStrip g.name ≠ "email_send" :=
        fun g hg => hno g (List.mem_cons_of_mem fc hg)
      by_cases hb : pyStrip fc.name = ""
      · rw [processCalls_cons_skip env prompt fc _ _ _ _ _ hb]
        obtain ⟨col', res', any', tr', heq, htr⟩ := ih col res any tr hxs
        exact ⟨col', res', any', tr', heq, fun e he =>
          (htr e he).imp id (fun ⟨g, hg, hgn⟩ => ⟨g, List.mem_cons_of_mem fc hg, hgn⟩)⟩
      · have hg : (decide (pyStrip fc.name = "email_send")
            && !truthyOpt (alookup (normalizeArgs env.jira_default_project_key
              (pyStrip fc.name) fc.args) "to")) = false := by
          simp [hfc]
        cases hlook : env.runners (pyStrip fc.name) with
        | none =>
            rw [processCalls_cons_unknown env prompt fc _ _ _ _ _ hb hg hlook]
            obtain ⟨col', res', any', tr', heq, htr⟩ := ih _ _ any tr hxs
            exact ⟨col', res', any', tr', heq, fun e he =>
              (htr e he).imp id (fun ⟨g, hgm, hgn⟩ => ⟨g, List.mem_cons_of_mem fc hgm, hgn⟩)⟩
        | some runner =>
            cases hrun : runner (normalizeArgs env.jira_default_project_key
                (pyStrip fc.name) fc.args) with
            | error ex =>
                rw [processCalls_cons_error env prompt fc _ _ _ _ _ runner ex hb hg hlook hrun]
                obtain ⟨col', res', any', tr', heq, htr⟩ := ih _ _ any _ hxs
                refine ⟨col', res', any', tr', heq, fun x hx => ?_⟩
                rcases htr x hx with hx' | ⟨g, hgm, hgn⟩
                · rcases List.mem_append.mp hx' with hx'' | hx''
                  · exact Or.inl hx''
                  · refine Or.inr ⟨fc, List.mem_cons_self fc xs, ?_⟩
                    rcases List.mem_singleton.mp hx'' with rfl
                    rfl
                · exact Or.inr ⟨g, List.mem_cons_of_mem fc hgm, hgn⟩
            | ok v =>
                rw [processCalls_cons_ok env prompt fc _ _ _ _ _ runner v hb hg hlook hrun]
                obtain ⟨col', res', any', tr', heq, htr⟩ := ih _ _ true _ hxs
                refine ⟨col', res', any', tr', heq, fun x hx => ?_⟩
                rcases htr x hx with hx' | ⟨g, hgm, hgn⟩
                · rcases List.mem_append.mp hx' with hx'' | hx''
                  · exact Or.inl hx''
                  · refine Or.inr ⟨fc, List.mem_cons_self fc xs, ?_⟩
                    rcases List.mem_singleton.mp hx'' with rfl
                    rfl
                · exact Or.inr ⟨g, List.mem_cons_of_mem fc hgm, hgn⟩

/-- C1: when the model's turn contains an `email_send` call with no
truthy `to` argument (preceded by calls that are not `email_send`), the
run returns the `email_required` error object carrying the audit list
collected so far plus the offending call, the email wrapper is never
invoked (no trace entry is named `email_send`), the calls after it are
not dispatched (the trace is exactly the prefix's trace), and the
context service is left unsaved. -/
theorem email_send_missing_to_short_circuits (env : AgentEnv) (svc : ContextService)
    (prompt : String) (sid : Option String) (r : ModelResp) (rest : List ModelResp)
    (pre post : List FunctionCall) (fc : FunctionCall)
    (hresp : env.responses = r :: rest)
    (hparts : r.partsOk = true)
    (hfcs : r.fcs = pre ++ fc :: post)
    (hpre : ∀ g ∈ pre, pyStrip g.name ≠ "email_send")
    (hfcname : pyStrip fc.name = "email_send")
    (hto : truthyOpt (alookup fc.args "to") = false) :
    ∃ col resP anyP tr,
      processCalls env prompt pre [] [] false [] = .done col resP anyP tr
      ∧ (GeminiToolsAgent.run env svc prompt sid).response
          = .dict (emailRequiredVal (col ++ [toolCallVal "email_send" fc.args]))
      ∧ (GeminiToolsAgent.run env svc prompt sid).trace = tr
      ∧ (∀ e ∈ tr, e.1 ≠ "email_send")
      ∧ (GeminiToolsAgent.run env svc prompt sid).svc = (svc.get_or_create_context sid).2 := by
  obtain ⟨col, resP, anyP, tr, heq, htr⟩ :=
    processCalls_no_email env prompt pre [] [] false [] hpre
  have hnorm : normalizeArgs env.jira_default_project_key (pyStrip fc.name) fc.args
      = fc.args := by
    rw [hfcname]
    rfl
  have hguard : (decide (pyStrip fc.name = "email_send")
      && !truthyOpt (alookup (normalizeArgs env.jira_default_project_key
        (pyStrip fc.name) fc.args) "to")) = true := by
    rw [hnorm, hfcname, hto]
    simp
  have hbne : ¬ pyStrip fc.name = "" := by
    rw [hfcname]
    decide
  have hnormE : normalizeArgs env.jira_default_project_key "email_send" fc.args
      = fc.args := by
    rw [← hfcname]; exact hnorm
  have hstep : processCalls env prompt (fc :: post) col resP anyP tr
      = .emailRequired (col ++ [toolCallVal "email_send" fc.args]) tr := by
    rw [processCalls_cons_email env prompt fc post col resP anyP tr hbne hguard,
      hfcname, hnormE]
  have hbatch : processCalls env prompt r.fcs [] [] false []
      = .emailRequired (col ++ [toolCallVal "email_send" fc.args]) tr := by
    rw [hfcs,
      processCalls_append env prompt pre (fc :: post) [] [] false [] col resP anyP tr heq,
      hstep]
  have hne : r.fcs.isEmpty = false := by
    rw [hfcs]; cases pre <;> simp
  have hrun : GeminiToolsAgent.run env svc prompt sid
      = { response := .dict (emailRequiredVal (col ++ [toolCallVal "email_send" fc.args])),
          svc := (svc.get_or_create_context sid).2, trace := tr } := by
    unfold GeminiToolsAgent.run
    rw [hresp]
    show runLoop env (svc.get_or_create_context sid).1 (svc.get_or_create_context sid).2
      prompt r rest false [] [] [] = _
    unfold runLoop
    rw [hparts, hne]
    simp only [Bool.not_true, Bool.false_or, Bool.false_eq_true, if_false]
    rw [hbatch]
  refine ⟨col, resP, anyP, tr, heq, ?_, ?_, ?_, ?_⟩
  · rw [hrun]
  · rw [hrun]
  · intro e he
    rcases htr e he with h0 | ⟨g, hgm, hgn⟩
    · exact absurd h0 (List.not_mem_nil e)
    · rw [hgn]; exact hpre g hgm
  · rw [hrun]

/-- An `email_send` call that lacks any `to` argument. -/
def fcEmailMissing : FunctionCall :=
  ⟨"email_send", [("subject", .vstr "hi"), ("body", .vstr "text")]⟩

/-- The model response used in the C1 witness: a Jira lookup, then the
recipient-less email call, then a further call that must not run. -/
def respEmailW : ModelResp :=
  { partsOk := true
    fcs := [⟨"jira_get_projects", []⟩, fcEmailMissing, ⟨"github_get_repos", []⟩]
    text := none }

/-- Agent environment whose single model turn is `respEmailW`. -/
def envEmailW : AgentEnv :=
  { envRegistryW with responses := [respEmailW] }

/-- A context service with no file and no loaded context. -/
def svcAbsent : ContextService := { file := .absent, current_context := none }

/-- Witness for C1: the concrete batch around `fcEmailMissing`
satisfies the hypotheses and the run short-circuits with
`email_required`. -/
theorem email_send_missing_to_short_circuits_witness :
    envEmailW.responses = respEmailW :: []
    ∧ respEmailW.partsOk = true
    ∧ respEmailW.fcs = [⟨"jira_get_projects", []⟩] ++ fcEmailMissing :: [⟨"github_get_repos", []⟩]
    ∧ pyStrip fcEmailMissing.name = "email_send"
    ∧ truthyOpt (alookup fcEmailMissing.args "to") = false
    ∧ (∃ col resP anyP tr,
        processCalls envEmailW "send the email" [⟨"jira_get_projects", []⟩] [] [] false []
          = .done col resP anyP tr
        ∧ (GeminiToolsAgent.run envEmailW svcAbsent "send the email" none).response
            = .dict (emailRequiredVal (col ++ [toolCallVal "email_send" fcEmailMissing.args]))
        ∧ (GeminiToolsAgent.run envEmailW svcAbsent "send the email" none).trace = tr
        ∧ (∀ e ∈ tr, e.1 ≠ "email_send")
        ∧ (GeminiToolsAgent.run envEmailW svcAbsent "send the email" none).svc
            = (svcAbsent.get_or_create_context none).2) :=
  ⟨rfl, rfl, rfl, by decide, rfl,
    email_send_missing_to_short_circuits envEmailW svcAbsent "send the email" none
      respEmailW [] [⟨"jira_get_projects", []⟩] [⟨"github_get_repos", []⟩] fcEmailMissing
      rfl rfl rfl
      (by intro g hg; rw [List.mem_singleton.mp hg]; decide)
      (by decide) rfl⟩

/-- Helper: the per-tool-call extraction never touches the conversation
history. -/
theorem extractFromToolCall_history (now : String) (result : Val)
    (c : SessionContext) (tc : Val) :
    (SessionContext.extractFromToolCall now result c tc).conversation_history
      = c.conversation_history :=
  rfl

/-- Helper: the tool-call fold never touches the conversation history. -/
theorem foldToolCalls_history (now : String) (result : Val) (tcs : List Val) :
    ∀ c : SessionContext,
      (tcs.foldl (SessionContext.extractFromToolCall now result) c).conversation_history
        = c.conversation_history := by
  induction tcs with
  | nil => intro c; rfl
  | cons tc tcs ih =>
      intro c
      rw [List.foldl_cons, ih, extractFromToolCall_history]

/-- Helper: the list-result dispatch never touches the conversation
history. -/
theorem extractFromListResult_history (c : SessionContext) (rs : List Val) :
    (SessionContext.extractFromListResult c rs).conversation_history
      = c.conversation_history := by
  unfold SessionContext.extractFromListResult
  (repeat' split) <;> rfl

/-- Helper: the dict-result dispatch never touches the conversation
history. -/
theorem extractFromDictResult_history (c : SessionContext) (result : Val) :
    (SessionContext.extractFromDictResult c result).conversation_history
      = c.conversation_history := by
  unfold SessionContext.extractFromDictResult
  (repeat' split) <;> rfl

/-- Helper: context extraction never touches the conversation history. -/
theorem extractContextFromResponse_history (c : SessionContext) (now : String)
    (response : Val) :
    (SessionContext.extractContextFromResponse c now response).conversation_history
      = c.conversation_history := by
  unfold SessionContext.extractContextFromResponse
  dsimp only
  split
  · rfl
  · (repeat' split) <;>
      first
        | rw [extractFromListResult_history, foldToolCalls_history]
        | rw [extractFromDictResult_history, foldToolCalls_history]
        | rw [foldToolCalls_history]
        | rfl

/-- Helper: `add_conversation` appends exactly one record, holding the
prompt and the response. -/
theorem add_conversation_history (c : SessionContext) (now input : String) (v : Val) :
    (c.add_conversation now input v).conversation_history
      = c.conversation_history ++ [SessionContext.conversationRecord now input v] := by
  unfold SessionContext.add_conversation
  dsimp only
  rw [extractContextFromResponse_history]

/-- Helper: the saving epilogue stores the grown context in memory and
overwrites the file with its serialization. -/
theorem saveTurn_spec (env : AgentEnv) (ctx : SessionContext) (svc : ContextService)
    (prompt : String) (v : Val) :
    (saveTurn env ctx svc prompt v).current_context
        = some (ctx.add_conversation env.now prompt v)
    ∧ (saveTurn env ctx svc prompt v).file
        = .stored (ctx.add_conversation env.now prompt v).to_dict :=
  ⟨rfl, rfl⟩

/-- Helper: every branch of the text epilogue returns a dict response
and performs the save. -/
theorem finishText_shape (env : AgentEnv) (ctx : SessionContext) (svc : ContextService)
    (prompt : String) (r : ModelResp) (any : Bool) (collected : List Val)
    (results : List ToolSlot) (tr : List (String × List (String × Val))) :
    ∃ v, (finishText env ctx svc prompt r any collected results tr).response = .dict v
      ∧ (finishText env ctx svc prompt r any collected results tr).svc
          = saveTurn env ctx svc prompt v := by
  unfold finishText
  (repeat' split) <;> exact ⟨_, rfl, rfl⟩

/-- Helper: every exit of the tool-calling loop either is the
`email_required` short circuit leaving the service untouched, or
returns a dict response after the save epilogue. -/
theorem runLoop_save_or_shortcircuit (env : AgentEnv) (ctx : SessionContext)
    (svc : ContextService) (prompt : String) :
    ∀ (rest : List ModelResp) (r : ModelResp) (any : Bool) (col : List Val)
      (lastResults : List ToolSlot) (tr : List (String × List (String × Val))),
      (∃ col', (runLoop env ctx svc prompt r rest any col lastResults tr).response
            = .dict (emailRequiredVal col')
          ∧ (runLoop env ctx svc prompt r rest any col lastResults tr).svc = svc)
      ∨ (∃ v, (runLoop env ctx svc prompt r rest any col lastResults tr).response = .dict v
          ∧ (runLoop env ctx svc prompt r rest any col lastResults tr).svc
              = saveTurn env ctx svc prompt v) := by
  intro rest
  induction rest with
  | nil =>
      intro r any col lastResults tr
      unfold runLoop
      split
      · obtain ⟨v, hv, hs⟩ := finishText_shape env ctx svc prompt r any col lastResults tr
        exact Or.inr ⟨v, hv, hs⟩
      · split
        · exact Or.inl ⟨_, rfl, rfl⟩
        · split
          · exact Or.inr ⟨_, rfl, rfl⟩
          · obtain ⟨v, hv, hs⟩ := finishText_shape env ctx svc prompt r _ _ _ _
            exact Or.inr ⟨v, hv, hs⟩
  | cons r' rest' ih =>
      intro r any col lastResults tr
      unfold runLoop
      split
      · obtain ⟨v, hv, hs⟩ := finishText_shape env ctx svc prompt r any col lastResults tr
        exact Or.inr ⟨v, hv, hs⟩
      · split
        · exact Or.inl ⟨_, rfl, rfl⟩
        · split
          · exact Or.inr ⟨_, rfl, rfl⟩
          · exact ih r' _ _ _ _

/-- C3 (amended): on every terminating branch of the orchestrator's run
except two short circuits — the `email_required` return and the
plain-text fallback taken when the first model call raises — a
conversation record containing the prompt and the response is appended
to the loaded context's history and the single context file is
overwritten with that context before the response is returned; on the
two excepted branches the service state is returned unsaved. -/
theorem run_appends_conversation_except_shortcircuits (env : AgentEnv)
    (svc : ContextService) (prompt : String) (sid : Option String) :
    (∃ s, (GeminiToolsAgent.run env svc prompt sid).response = .plain s
       ∧ (GeminiToolsAgent.run env svc prompt sid).svc = (svc.get_or_create_context sid).2)
    ∨ (∃ col, (GeminiToolsAgent.run env svc prompt sid).response
          = .dict (emailRequiredVal col)
       ∧ (GeminiToolsAgent.run env svc prompt sid).svc = (svc.get_or_create_context sid).2)
    ∨ (∃ v, (GeminiToolsAgent.run env svc prompt sid).response = .dict v
       ∧ (GeminiToolsAgent.run env svc prompt sid).svc.current_context
           = some ((svc.get_or_create_context sid).1.add_conversation env.now prompt v)
       ∧ (GeminiToolsAgent.run env svc prompt sid).svc.file
           = .stored ((svc.get_or_create_context sid).1.add_conversation
               env.now prompt v).to_dict
       ∧ ((svc.get_or_create_context sid).1.add_conversation
             env.now prompt v).conversation_history
           = (svc.get_or_create_context sid).1.conversation_history
             ++ [SessionContext.conversationRecord env.now prompt v]) := by
  unfold GeminiToolsAgent.run
  cases hresp : env.responses with
  | nil => exact Or.inl ⟨_, rfl, rfl⟩
  | cons r rest =>
      rcases runLoop_save_or_shortcircuit env (svc.get_or_create_context sid).1
          (svc.get_or_create_context sid).2 prompt rest r false [] [] [] with
        ⟨col, hv, hs⟩ | ⟨v, hv, hs⟩
      · exact Or.inr (Or.inl ⟨col, hv, hs⟩)
      · refine Or.inr (Or.inr ⟨v, hv, ?_, ?_, ?_⟩)
        · rw [hs]
          exact (saveTurn_spec env _ _ prompt v).1
        · rw [hs]
          exact (saveTurn_spec env _ _ prompt v).2
        · exact add_conversation_history _ env.now prompt v

/-- C3 counterexample: the `email_required` short circuit is a
terminating branch of the run (a terminal error response is returned),
yet no conversation record is appended — the loaded context still has
an empty history — and the context file is never written (it remains
absent). -/
theorem run_email_required_skips_save_counterexample :
    (GeminiToolsAgent.run envEmailW svcAbsent "send the email" none).response
      = .dict (emailRequiredVal
          [toolCallVal "jira_get_projects" [], toolCallVal "email_send" fcEmailMissing.args])
    ∧ (GeminiToolsAgent.run envEmailW svcAbsent "send the email" none).svc.file
        = FileState.absent
    ∧ (match (GeminiToolsAgent.run envEmailW svcAbsent
          "send the email" none).svc.current_context with
       | some c => c.conversation_history
       | none => []) = [] :=
  ⟨rfl, rfl, rfl⟩

/-- Mock-mode runner oracle: `github_get_repos` answers the wrapper's
canned list (a no-argument call, as `run_github_get_repos` takes no
parameters); other runners are inert. -/
def implMockRepos : String → List (String × Val) → Except String Val :=
  fun n args =>
    if n = "github_get_repos" then
      (if args.isEmpty then .ok get_repos_mock else .error "TypeError")
    else .ok .vnull

/-- Agent environment whose single model turn calls `github_get_repos`
with no arguments, over the registry with GitHub mock mode. -/
def envReposW : AgentEnv :=
  { envRegistryW with
      runners := ALL_TOOL_RUNNERS implMockRepos
      responses := [{ partsOk := true, fcs := [⟨"github_get_repos", []⟩], text := none }] }

/-- C7 counterexample: the mock-mode `github_get_repos` turn produces
the wrapper's canned repository list wrapped as claimed — but that list
has ONE entry, not two. -/
theorem github_repos_mock_single_entry_counterexample :
    (GeminiToolsAgent.run envReposW svcAbsent "list my github repos" none).response
      = .dict (.vdict [("result", get_repos_mock),
          ("toolCalls", .vlist [toolCallVal "github_get_repos" []]),
          ("model_summary", .vnull)])
    ∧ get_repos_mock.asList.length = 1
    ∧ ¬ get_repos_mock.asList.length = 2 :=
  ⟨rfl, rfl, by decide⟩

/-- C7 (amended): with GitHub mock mode enabled, a turn whose only
dispatched tool is `github_get_repos` with no arguments yields the
wrapper's one-entry mock repository list (first entry named
`test-repo`) wrapped as `{result, toolCalls, model_summary}` with the
audit entry `{"name": "github_get_repos", "args": {}}` and a summary
that is a string or null; exactly that one runner invocation happens. -/
theorem github_repos_mock_run (env : AgentEnv) (svc : ContextService)
    (prompt : String) (sid : Option String) (r : ModelResp) (rest : List ModelResp)
    (runner : List (String × Val) → Except String Val)
    (hresp : env.responses = r :: rest)
    (hparts : r.partsOk = true)
    (hfcs : r.fcs = [⟨"github_get_repos", []⟩])
    (hlook : env.runners "github_get_repos" = some runner)
    (hrun : runner [] = .ok get_repos_mock) :
    ∃ ms, (GeminiToolsAgent.run env svc prompt sid).response
        = .dict (.vdict [("result", get_repos_mock),
            ("toolCalls", .vlist [toolCallVal "github_get_repos" []]),
            ("model_summary", ms)])
      ∧ ((∃ s, ms = .vstr s) ∨ ms = .vnull)
      ∧ (GeminiToolsAgent.run env svc prompt sid).trace = [("github_get_repos", [])]
      ∧ (get_repos_mock.asList.headD .vnull).attrGet "name" = some (.vstr "test-repo")
      ∧ get_repos_mock.asList.length = 1 := by
  set fc : FunctionCall := ⟨"github_get_repos", []⟩ with hfcdef
  have hps : pyStrip fc.name = "github_get_repos" := by decide
  have hb : ¬ pyStrip fc.name = "" := by decide
  have hnormG : normalizeArgs env.jira_default_project_key "github_get_repos" fc.args
      = ([] : List (String × Val)) := rfl
  have hnorm : normalizeArgs env.jira_default_project_key (pyStrip fc.name) fc.args
      = ([] : List (String × Val)) := by
    rw [hps]; rfl
  have hguard : (decide (pyStrip fc.name = "email_send")
      && !truthyOpt (alookup (normalizeArgs env.jira_default_project_key
        (pyStrip fc.name) fc.args) "to")) = false := by
    rw [hps]; simp
  have hlook' : env.runners (pyStrip fc.name) = some runner := by rw [hps]; exact hlook
  have hrun' : runner (normalizeArgs env.jira_default_project_key
      (pyStrip fc.name) fc.args) = .ok get_repos_mock := by rw [hnorm]; exact hrun
  have henr : applyEnrichment env prompt (pyStrip fc.name)
      (normalizeArgs env.jira_default_project_key (pyStrip fc.name) fc.args)
      get_repos_mock = get_repos_mock := by
    rw [hps, hnormG]
    unfold applyEnrichment
    simp [get_repos_mock, Val.pyGet, Val.hasAttr]
  have hbatch : processCalls env prompt [fc] [] [] false []
      = .done [toolCallVal "github_get_repos" []]
          [⟨"github_get_repos", get_repos_mock⟩] true [("github_get_repos", [])] := by
    rw [processCalls_cons_ok env prompt fc [] [] [] false [] runner get_repos_mock
      hb hguard hlook' hrun']
    rw [henr]
    simp only [processCalls]
    rw [hps, hnormG]
    simp only [List.nil_append]
  have hne : r.fcs.isEmpty = false := by rw [hfcs]; rfl
  have hloop : GeminiToolsAgent.run env svc prompt sid
      = { response := .dict (buildToolResult env [toolCallVal "github_get_repos" []]
            [⟨"github_get_repos", get_repos_mock⟩])
          svc := saveTurn env (svc.get_or_create_context sid).1
            (svc.get_or_create_context sid).2 prompt
            (buildToolResult env [toolCallVal "github_get_repos" []]
              [⟨"github_get_repos", get_repos_mock⟩])
          trace := [("github_get_repos", [])] } := by
    unfold GeminiToolsAgent.run
    rw [hresp]
    show runLoop env (svc.get_or_create_context sid).1 (svc.get_or_create_context sid).2
      prompt r rest false [] [] [] = _
    unfold runLoop
    rw [hparts, hne]
    simp only [Bool.not_true, Bool.false_or, Bool.false_eq_true, if_false]
    rw [hfcs, hbatch]
    rfl
  cases hsum : env.summaryAttempt get_repos_mock with
  | error e =>
      refine ⟨.vstr (fallbackSummary [toolCallVal "github_get_repos" []]), ?_, ?_, ?_, rfl, rfl⟩
      · rw [hloop]
        show RunResponse.dict (buildToolResult env _ _) = _
        simp only [buildToolResult]
        rw [hsum]
      · exact Or.inl ⟨_, rfl⟩
      · rw [hloop]
  | ok o =>
      cases o with
      | none =>
          refine ⟨.vnull, ?_, Or.inr rfl, ?_, rfl, rfl⟩
          · rw [hloop]
            show RunResponse.dict (buildToolResult env _ _) = _
            simp only [buildToolResult]
            rw [hsum]
          · rw [hloop]
      | some s =>
          refine ⟨.vstr s, ?_, Or.inl ⟨s, rfl⟩, ?_, rfl, rfl⟩
          · rw [hloop]
            show RunResponse.dict (buildToolResult env _ _) = _
            simp only [buildToolResult]
            rw [hsum]
          · rw [hloop]

/-- Witness for C7 (amended): the concrete mock environment `envReposW`
satisfies the hypotheses and yields the wrapped one-entry list. -/
theorem github_repos_mock_run_witness :
    envReposW.responses
      = ({ partsOk := true, fcs := [⟨"github_get_repos", []⟩], text := none } : ModelResp) :: []
    ∧ implMockRepos "github_get_repos" [] = .ok get_repos_mock
    ∧ (∃ ms, (GeminiToolsAgent.run envReposW svcAbsent "list my github repos" none).response
          = .dict (.vdict [("result", get_repos_mock),
              ("toolCalls", .vlist [toolCallVal "github_get_repos" []]),
              ("model_summary", ms)])
        ∧ ((∃ s, ms = .vstr s) ∨ ms = .vnull)
        ∧ (GeminiToolsAgent.run envReposW svcAbsent "list my github repos" none).trace
            = [("github_get_repos", [])]
        ∧ (get_repos_mock.asList.headD .vnull).attrGet "name" = some (.vstr "test-repo")
        ∧ get_repos_mock.asList.length = 1) :=
  ⟨rfl, rfl,
    github_repos_mock_run envReposW svcAbsent "list my github repos" none
      { partsOk := true, fcs := [⟨"github_get_repos", []⟩], text := none } []
      (implMockRepos "github_get_repos") rfl rfl rfl rfl rfl⟩

/-- The cap invariant on the bounded recent lists: 5 for
issues/PRs/Jira projects/Jira issues/Jira sprints, 10 for actions. -/
def RecentCaps (c : SessionContext) : Prop :=
  c.recent_issues.length ≤ 5
  ∧ c.recent_prs.length ≤ 5
  ∧ c.recent_jira_projects.length ≤ 5
  ∧ c.recent_jira_issues.length ≤ 5
  ∧ c.recent_jira_sprints.length ≤ 5
  ∧ c.recent_actions.length ≤ 10

/-- Helper: the capped insert always yields at most 5 elements. -/
theorem insertCap5_le (l : List Val) (v : Val) :
    (SessionContext.insertCap5 l v).length ≤ 5 := by
  unfold SessionContext.insertCap5
  dsimp only
  split
  · simpa using List.length_take_le 5 (v :: l)
  · omega

/-- Helper: the per-tool-call extraction leaves the five bounded
recent lists untouched. -/
theorem extractFromToolCall_recent_lists (now : String) (result : Val)
    (c : SessionContext) (tc : Val) :
    (SessionContext.extractFromToolCall now result c tc).recent_issues = c.recent_issues
    ∧ (SessionContext.extractFromToolCall now result c tc).recent_prs = c.recent_prs
    ∧ (SessionContext.extractFromToolCall now result c tc).recent_jira_projects
        = c.recent_jira_projects
    ∧ (SessionContext.extractFromToolCall now result c tc).recent_jira_issues
        = c.recent_jira_issues
    ∧ (SessionContext.extractFromToolCall now result c tc).recent_jira_sprints
        = c.recent_jira_sprints :=
  ⟨rfl, rfl, rfl, rfl, rfl⟩

/-- Helper: the per-tool-call extraction keeps at most 10 recent
actions when at most 10 were present. -/
theorem extractFromToolCall_actions_le (now : String) (result : Val)
    (c : SessionContext) (tc : Val) (h : c.recent_actions.length ≤ 10) :
    (SessionContext.extractFromToolCall now result c tc).recent_actions.length ≤ 10 := by
  unfold SessionContext.extractFromToolCall
  dsimp only
  split
  · rename_i hgt
    simp only [List.length_append, List.length_cons, List.length_nil] at hgt
    simp [List.length_drop]
    omega
  · rename_i hle
    omega

/-- Helper: the tool-call fold preserves the cap invariant (and leaves
the five bounded lists untouched). -/
theorem foldToolCalls_caps (now : String) (result : Val) (tcs : List Val) :
    ∀ c : SessionContext, RecentCaps c →
      RecentCaps (tcs.foldl (SessionContext.extractFromToolCall now result) c) := by
  induction tcs with
  | nil => intro c h; exact h
  | cons tc tcs ih =>
      intro c h
      obtain ⟨h1, h2, h3, h4, h5, h6⟩ := h
      rw [List.foldl_cons]
      apply ih
      obtain ⟨e1, e2, e3, e4, e5⟩ := extractFromToolCall_recent_lists now result c tc
      exact ⟨by rw [e1]; exact h1, by rw [e2]; exact h2, by rw [e3]; exact h3,
        by rw [e4]; exact h4, by rw [e5]; exact h5,
        extractFromToolCall_actions_le now result c tc h6⟩

/-- Helper: the list-result dispatch preserves the cap invariant (each
arm either keeps a list or replaces it by a 5-element prefix). -/
theorem extractFromListResult_caps (c : SessionContext) (rs : List Val)
    (h : RecentCaps c) : RecentCaps (SessionContext.extractFromListResult c rs) := by
  obtain ⟨h1, h2, h3, h4, h5, h6⟩ := h
  unfold SessionContext.extractFromListResult
  (repeat' split) <;>
    exact ⟨by first | exact h1 | simpa using List.length_take_le 5 rs,
           by first | exact h2 | simpa using List.length_take_le 5 rs,
           by first | exact h3 | simpa using List.length_take_le 5 rs,
           by first | exact h4 | simpa using List.length_take_le 5 rs,
           by first | exact h5 | simpa using List.length_take_le 5 rs,
           h6⟩

/-- Helper: the dict-result dispatch preserves the cap invariant (each
arm either keeps a list or performs a capped insert). -/
theorem extractFromDictResult_caps (c : SessionContext) (result : Val)
    (h : RecentCaps c) : RecentCaps (SessionContext.extractFromDictResult c result) := by
  obtain ⟨h1, h2, h3, h4, h5, h6⟩ := h
  unfold SessionContext.extractFromDictResult
  (repeat' split) <;>
    exact ⟨by first | exact h1 | exact insertCap5_le _ _,
           by first | exact h2 | exact insertCap5_le _ _,
           by first | exact h3 | exact insertCap5_le _ _,
           by first | exact h4 | exact insertCap5_le _ _,
           by first | exact h5 | exact insertCap5_le _ _,
           h6⟩

/-- Helper: context extraction preserves the cap invariant. -/
theorem extractContextFromResponse_caps (c : SessionContext) (now : String)
    (response : Val) (h : RecentCaps c) :
    RecentCaps (SessionContext.extractContextFromResponse c now response) := by
  unfold SessionContext.extractContextFromResponse
  dsimp only
  split
  · exact h
  · (repeat' split) <;>
      first
        | exact extractFromListResult_caps _ _ (foldToolCalls_caps now _ _ c h)
        | exact extractFromDictResult_caps _ _ (foldToolCalls_caps now _ _ c h)
        | exact foldToolCalls_caps now _ _ c h

/-- C5: after any `add_conversation` call (hence after every
orchestrator turn) on a context whose recent lists are within their
caps, the lists remain within the caps: issues, PRs, Jira
projects/issues/sprints at most 5, actions at most 10. -/
theorem add_conversation_preserves_caps (c : SessionContext) (now input : String)
    (resp : Val)
    (h1 : c.recent_issues.length ≤ 5) (h2 : c.recent_prs.length ≤ 5)
    (h3 : c.recent_jira_projects.length ≤ 5) (h4 : c.recent_jira_issues.length ≤ 5)
    (h5 : c.recent_jira_sprints.length ≤ 5) (h6 : c.recent_actions.length ≤ 10) :
    (c.add_conversation now input resp).recent_issues.length ≤ 5
    ∧ (c.add_conversation now input resp).recent_prs.length ≤ 5
    ∧ (c.add_conversation now input resp).recent_jira_projects.length ≤ 5
    ∧ (c.add_conversation now input resp).recent_jira_issues.length ≤ 5
    ∧ (c.add_conversation now input resp).recent_jira_sprints.length ≤ 5
    ∧ (c.add_conversation now input resp).recent_actions.length ≤ 10 := by
  have hx := extractContextFromResponse_caps c now resp ⟨h1, h2, h3, h4, h5, h6⟩
  obtain ⟨x1, x2, x3, x4, x5, x6⟩ := hx
  unfold SessionContext.add_conversation
  dsimp only
  exact ⟨x1, x2, x3, x4, x5, x6⟩

/-- A context at the caps: five recent PRs and ten recent actions. -/
def ctxAtCaps : SessionContext :=
  { SessionContext.empty with
      recent_prs := List.replicate 5 (.vdict [("id", .vint 1), ("number", .vint 2)])
      recent_actions := List.replicate 10 (.vdict [("tool", .vstr "github_get_repos")]) }

/-- A response carrying a tool call and a single-PR dict result (the
shape that triggers a capped insert). -/
def respAtCaps : Val :=
  .vdict
    [("result", .vdict [("number", .vint 9), ("title", .vstr "Fix"),
        ("html_url", .vstr "http://example.com/pull/9")]),
     ("toolCalls", .vlist [.vdict [("name", .vstr "github_get_pull_requests"),
        ("args", .vdict [("owner", .vstr "o"), ("repo", .vstr "r")])]])]

/-- Witness for C5: a context at its caps stays within the caps after
absorbing a turn that inserts a new PR and appends an action. -/
theorem add_conversation_preserves_caps_witness :
    ctxAtCaps.recent_prs.length ≤ 5 ∧ ctxAtCaps.recent_actions.length ≤ 10
    ∧ ((ctxAtCaps.add_conversation "T1" "list prs" respAtCaps).recent_issues.length ≤ 5
      ∧ (ctxAtCaps.add_conversation "T1" "list prs" respAtCaps).recent_prs.length ≤ 5
      ∧ (ctxAtCaps.add_conversation "T1" "list prs" respAtCaps).recent_jira_projects.length ≤ 5
      ∧ (ctxAtCaps.add_conversation "T1" "list prs" respAtCaps).recent_jira_issues.length ≤ 5
      ∧ (ctxAtCaps.add_conversation "T1" "list prs" respAtCaps).recent_jira_sprints.length ≤ 5
      ∧ (ctxAtCaps.add_conversation "T1" "list prs" respAtCaps).recent_actions.length ≤ 10) :=
  ⟨by decide, by decide,
    add_conversation_preserves_caps ctxAtCaps "T1" "list prs" respAtCaps
      (by decide) (by decide) (by decide) (by decide) (by decide) (by decide)⟩

end ProjectAutomator
